import Mathlib

/-!
# SkyCMS Tailwind distribution builder

A shallow embedding of `build-skycms.js` and of the two committed configuration
files (`tailwind-config.js` and `dist/skycms/tailwind-config.js`).

Modelling conventions.

* A path is the list of its components below `__dirname` (the directory of the
  script); `__dirname` itself is the empty list.
* The file system maps a path to the node found there: a regular file with its
  text, a directory, or nothing.  File contents are texts (sequences of Unicode
  scalar values), the view `readFileSync(p, 'utf8')` and `writeFileSync(p, text)`
  give of a UTF-8 file; `statSync(p).size` is the UTF-8 length of the text.
* The `fs` calls throw in the situations that depend on the modelled state
  (missing node, directory in place of a file, missing parent directory);
  permissions, quotas and device errors are outside the model.
* The Terser call `minify(code, options)` (options fixed by the script) and the
  clock are parameters of the run, collected in `Env`.
* A run returns the final file system, the list of effects it performed
  (`Event`) and how it ended: normally, by `process.exit(code)`, or by an
  exception that nobody caught.
-/

namespace SkyCMS

/-! ## File system and effects -/

/-- A path below `__dirname`, as the list of its components. -/
abbrev Path := List String

/-- What the file system holds at a path. -/
inductive Node
  | file (content : String)
  | dir
  deriving DecidableEq, Repr

/-- The file system: the node at each path, if any. -/
abbrev FS := Path → Option Node

/-- An `Error` object; only its `message` is ever inspected by the script. -/
structure JSError where
  message : String
  deriving DecidableEq, Repr

/-- The observable calls made by the script, in program order. A
`writeFileSync` event also records the node that the file system held at the
parent directory of the target when the call was made. -/
inductive Event
  | console_log (text : String)
  | console_error (text : String)
  | existsSync (p : Path)
  | mkdirSync (p : Path)
  | readFileSync (p : Path)
  | writeFileSync (p : Path) (data : String) (parent : Option Node)
  | statSync (p : Path)
  | minify (code : String)
  deriving DecidableEq, Repr

/-- Why control left the normal flow: `process.exit(code)`, which ends the
process at once and cannot be caught, or a thrown exception (a rejected
`await` included). -/
inductive Stop
  | exit (code : Nat)
  | throw (e : JSError)
  deriving DecidableEq, Repr

/-- The result of running a piece of the script from a file system. -/
structure Run (α : Type) where
  result : Except Stop α
  fs : FS
  events : List Event

/-- A computation of the script: a function of the file system it starts from. -/
def JS (α : Type) : Type := FS → Run α

/-- Sequencing: the second computation runs only if the first ended normally;
effects and events of both are kept in order. -/
def JS.bind {α β : Type} (m : JS α) (f : α → JS β) : JS β := fun fs =>
  match m fs with
  | ⟨.ok a, fs1, ev1⟩ =>
    match f a fs1 with
    | ⟨r, fs2, ev2⟩ => ⟨r, fs2, ev1 ++ ev2⟩
  | ⟨.error s, fs1, ev1⟩ => ⟨.error s, fs1, ev1⟩

instance : Monad JS where
  pure a := fun fs => ⟨.ok a, fs, []⟩
  bind := JS.bind

/-- `try { body } catch (error) { handler(error) }`: only exceptions are
caught; `process.exit` is not. -/
def tryCatch {α : Type} (body : JS α) (handler : JSError → JS α) : JS α := fun fs =>
  match body fs with
  | ⟨.error (.throw e), fs1, ev1⟩ =>
    match handler e fs1 with
    | ⟨r, fs2, ev2⟩ => ⟨r, fs2, ev1 ++ ev2⟩
  | r => r

/-- Exit status of the Node process after a run of the whole script: 0 when the
script runs to its end, the argument of `process.exit`, and 1 for an uncaught
exception. -/
def Run.exitCode {α : Type} (r : Run α) : Nat :=
  match r.result with
  | .ok _ => 0
  | .error (.exit code) => code
  | .error (.throw _) => 1

/-- Rendering of a path for messages. -/
def Path.render (p : Path) : String := String.intercalate "/" p

/-- Parent directory of a path. -/
def Path.parent (p : Path) : Path := p.dropLast

/-- Whether `p` is a directory; `__dirname` always is. -/
def isDirectory (fs : FS) (p : Path) : Bool :=
  p == [] || fs p == some Node.dir

/-- The `console.log(text)` call. -/
def console_log (text : String) : JS Unit := fun fs =>
  ⟨.ok (), fs, [.console_log text]⟩

/-- The `console.error(text)` call. -/
def console_error (text : String) : JS Unit := fun fs =>
  ⟨.ok (), fs, [.console_error text]⟩

/-- The `process.exit(code)` call. -/
def process_exit {α : Type} (code : Nat) : JS α := fun fs =>
  ⟨.error (.exit code), fs, []⟩

/-- The `fs.existsSync(p)` call: true for any node, file or directory. -/
def existsSync (p : Path) : JS Bool := fun fs =>
  ⟨.ok (fs p).isSome, fs, [.existsSync p]⟩

/-- Creation of the missing directories along `pre ++ rest`, top down. -/
def mkdirSync.go (fs : FS) (pre : Path) : List String → Except JSError FS
  | [] => .ok fs
  | c :: cs =>
    match fs (pre ++ [c]) with
    | some (.file _) =>
      .error ⟨(if cs = [] then "EEXIST: file already exists, mkdir "
        else "ENOTDIR: not a directory, mkdir ") ++ Path.render (pre ++ c :: cs)⟩
    | some .dir => mkdirSync.go fs (pre ++ [c]) cs
    | none => mkdirSync.go (Function.update fs (pre ++ [c]) (some .dir)) (pre ++ [c]) cs

/-- The `fs.mkdirSync(p, { recursive: true })` call: creates `p` and its missing
ancestors; throws when a regular file is in the way, creating nothing. -/
def mkdirSync (p : Path) : JS Unit := fun fs =>
  match mkdirSync.go fs [] p with
  | .ok fs1 => ⟨.ok (), fs1, [.mkdirSync p]⟩
  | .error e => ⟨.error (.throw e), fs, [.mkdirSync p]⟩

/-- The `fs.readFileSync(p, 'utf8')` call. -/
def readFileSync (p : Path) : JS String := fun fs =>
  match fs p with
  | some (.file content) => ⟨.ok content, fs, [.readFileSync p]⟩
  | some .dir =>
    ⟨.error (.throw ⟨"EISDIR: illegal operation on a directory, read"⟩), fs, [.readFileSync p]⟩
  | none =>
    ⟨.error (.throw ⟨"ENOENT: no such file or directory, open " ++ p.render⟩), fs,
      [.readFileSync p]⟩

/-- The `fs.writeFileSync(p, data)` call: replaces the whole content of `p`,
creating the file if needed; throws when the parent is not a directory or `p`
is itself a directory. -/
def writeFileSync (p : Path) (data : String) : JS Unit := fun fs =>
  if isDirectory fs p.parent then
    match fs p with
    | some .dir =>
      ⟨.error (.throw ⟨"EISDIR: illegal operation on a directory, open " ++ p.render⟩), fs,
        [.writeFileSync p data (fs p.parent)]⟩
    | _ => ⟨.ok (), Function.update fs p (some (.file data)), [.writeFileSync p data (fs p.parent)]⟩
  else
    ⟨.error (.throw ⟨(if (fs p.parent).isSome then "ENOTDIR: not a directory, open "
        else "ENOENT: no such file or directory, open ") ++ p.render⟩), fs,
      [.writeFileSync p data (fs p.parent)]⟩

/-- The part of an `fs.Stats` object the script uses. -/
structure Stats where
  size : Nat
  deriving DecidableEq, Repr

/-- The `fs.statSync(p)` call. The size of a regular file is its length in
bytes; for a directory the value depends on the platform (4096 here), a case
the script never meets because it only stats a file it has just written. -/
def statSync (p : Path) : JS Stats := fun fs =>
  match fs p with
  | some (.file content) => ⟨.ok ⟨content.utf8ByteSize⟩, fs, [.statSync p]⟩
  | some .dir => ⟨.ok ⟨4096⟩, fs, [.statSync p]⟩
  | none =>
    ⟨.error (.throw ⟨"ENOENT: no such file or directory, stat " ++ p.render⟩), fs,
      [.statSync p]⟩

/-- The value `{ code }` a successful Terser `minify` resolves to. -/
structure MinifyOutput where
  code : String
  deriving DecidableEq, Repr

/-- What a run depends on besides the file system: the Terser transform with
the options of the script (it resolves to an output or rejects with an error),
and the clock, `now k` being the value of the `k`-th evaluation of
`new Date().toISOString()` (the script evaluates it four times: once in each
banner, in the order runtime, config, bundle, then once in the README). -/
structure Env where
  minify : String → Except JSError MinifyOutput
  now : Nat → String

/-- The `await minify(code, options)` expression with the options of the script. -/
def awaitMinify (env : Env) (code : String) : JS MinifyOutput := fun fs =>
  match env.minify code with
  | .ok out => ⟨.ok out, fs, [.minify code]⟩
  | .error e => ⟨.error (.throw e), fs, [.minify code]⟩

/-! ## Pure helpers -/

/-- Components of a relative path text: the pieces between slashes. -/
def components.go : List Char → List Char → List String
  | acc, [] => if acc = [] then [] else [String.mk acc.reverse]
  | acc, c :: cs =>
    if c = '/' then
      (if acc = [] then [] else [String.mk acc.reverse]) ++ components.go [] cs
    else components.go (c :: acc) cs

/-- Components of a relative path text. -/
def components (rel : String) : List String := components.go [] rel.data

/-- The `path.join(base, rel)` call for a relative `rel` without dot segments. -/
def path_join (base : Path) (rel : String) : Path := base ++ components rel

/-- The number of hundredths that `(size / 1024).toFixed(2)` shows for a file
size: the integer nearest to `size * 100 / 1024`, the larger one on a tie. The
division by 1024 is exact in binary64 for every size below 2^53, so `toFixed`
rounds the exact quotient. -/
def kbHundredths (size : Nat) : Nat := (size * 200 + 1024) / 2048

/-- The expression `(size / 1024).toFixed(2)` for a file size: the decimal
numeral with two fraction digits for `kbHundredths size` hundredths. -/
def toFixed2KB (size : Nat) : String :=
  let hundredths := kbHundredths size
  toString (hundredths / 100) ++ "." ++
    (if hundredths % 100 < 10 then "0" else "") ++ toString (hundredths % 100)

/-- Template literal of `banners.runtime` (build-skycms.js lines 41-56); `generated` is the value of `new Date().toISOString()`. -/
def runtimeBanner (generated : String) : String :=
  String.join [
    "/**\n",
    " * SkyCMS Tailwind Runtime\n",
    " * \n",
    " * This is the Tailwind CSS JavaScript engine that dynamically generates\n",
    " * CSS from HTML class names at runtime. It scans your HTML for Tailwind\n",
    " * classes and creates the corresponding styles on the fly.\n",
    " * \n",
    " * Usage: Load this after tailwind-config.js\n",
    " * Size: ~398 KB (minified)\n",
    " * Cache: Set to cache for 1 year for optimal performance\n",
    " * \n",
    " * Part of SkyCMS Tailwind Distribution\n",
    " * Generated: ",
    generated,
    "\n",
    " */\n",
    "\n"]

/-- Template literal of `banners.config` (lines 57-74). -/
def configBanner (generated : String) : String :=
  String.join [
    "/**\n",
    " * SkyCMS Tailwind Configuration\n",
    " * \n",
    " * This file contains your custom Tailwind theme configuration including:\n",
    " * - Brand colors (cyan/teal palette)\n",
    " * - Accent colors (orange/yellow palette)  \n",
    " * - Custom fonts (Montserrat, Roboto, Inter)\n",
    " * - Custom animations (float, slide-in, fade-in)\n",
    " * \n",
    " * Usage: Load this before tailwind-runtime.js\n",
    " * Size: ~2 KB (minified)\n",
    " * Cache: Update this file when theme changes\n",
    " * \n",
    " * Part of SkyCMS Tailwind Distribution\n",
    " * Generated: ",
    generated,
    "\n",
    " */\n",
    "\n"]

/-- Template literal of `banners.bundle` (lines 75-98). -/
def bundleBanner (generated : String) : String :=
  String.join [
    "/**\n",
    " * SkyCMS Tailwind Bundle (All-in-One)\n",
    " * \n",
    " * This combined file includes:\n",
    " * 1. Tailwind CSS Runtime Engine (~398 KB)\n",
    " * 2. Custom Theme Configuration (~2 KB)\n",
    " * \n",
    " * This is a convenience bundle that combines both the runtime engine\n",
    " * and configuration into a single file. Use this for simpler deployment,\n",
    " * but note that updating the config requires re-downloading the entire file.\n",
    " * \n",
    " * For better cache efficiency, consider using separate files:\n",
    " * - tailwind-config.js (2 KB, cache separately)\n",
    " * - tailwind-runtime.js (398 KB, cache separately)\n",
    " * \n",
    " * Usage: Load this single file instead of separate config + runtime\n",
    " * Size: ~400 KB (minified)\n",
    " * Cache: Set to cache for 1 year\n",
    " * \n",
    " * Part of SkyCMS Tailwind Distribution\n",
    " * Generated: ",
    generated,
    "\n",
    " */\n",
    "\n"]

/-- Pieces of the template literal `readmeContent` of `createDocumentation` (lines 185-266), in order. The four interpolations are, in evaluation order: the timestamp and the three `(fs.statSync(..).size / 1024).toFixed(2)` values. -/
def readmeParts (generated jsKB configKB bundleKB : String) : List String :=
  [
    "# SkyCMS Tailwind CSS Distribution\n",
    "\n",
    "Generated on: ",
    generated,
    "\n",
    "\n",
    "## Files Included\n",
    "\n",
    "### Option 1: Separate Files (Recommended)\n",
    "- **tailwind-runtime.js** - Tailwind CSS engine (with banner comments)\n",
    "- **tailwind-config.js** - Your custom theme configuration (minified + banner)\n",
    "\n",
    "**Usage:**\n",
    "```html\n",
    "<script src=\"/dist/skycms/tailwind-config.js\"></script>\n",
    "<script src=\"/dist/skycms/tailwind-runtime.js\"></script>\n",
    "```\n",
    "\n",
    "**Benefits:**\n",
    "- Configuration cached separately\n",
    "- Update config without re-downloading engine\n",
    "- Better cache efficiency\n",
    "\n",
    "### Option 2: Combined Bundle\n",
    "- **tailwind-bundle.js** - Everything in one file (minified + banner)\n",
    "\n",
    "**Usage:**\n",
    "```html\n",
    "<script src=\"/dist/skycms/tailwind-bundle.js\"></script>\n",
    "```\n",
    "\n",
    "**Benefits:**\n",
    "- Single HTTP request\n",
    "- Simpler deployment\n",
    "\n",
    "## File Sizes\n",
    "\n",
    "All files include informative banner comments explaining their purpose.\n",
    "\n",
    "| File | Size | Purpose |\n",
    "|------|------|---------|\n",
    "| tailwind-runtime.js | ",
    jsKB,
    " KB | Tailwind CSS engine |\n",
    "| tailwind-config.js | ",
    configKB,
    " KB | Custom theme (minified) |\n",
    "| tailwind-bundle.js | ",
    bundleKB,
    " KB | Combined (all-in-one) |\n",
    "\n",
    "## Deployment\n",
    "\n",
    "1. Copy `dist/skycms/` contents to your web server\n",
    "2. Reference the files in your SkyCMS page templates\n",
    "3. All Tailwind classes will work dynamically\n",
    "\n",
    "## Cache Strategy\n",
    "\n",
    "**For best performance, configure your web server:**\n",
    "\n",
    "### Nginx\n",
    "```nginx\n",
    "location ~* \\.js$ \x7b\n",
    "  expires 1y;\n",
    "  add_header Cache-Control \"public, immutable\";\n",
    "\x7d\n",
    "```\n",
    "\n",
    "### Apache\n",
    "```apache\n",
    "<FilesMatch \"\\.(js)$\">\n",
    "  Header set Cache-Control \"max-age=31536000, public, immutable\"\n",
    "</FilesMatch>\n",
    "```\n",
    "\n",
    "## Production Notes\n",
    "\n",
    "✅ **Production Ready** - No CDN warnings\n",
    "✅ **Self-Hosted** - Full control\n",
    "✅ **Minified** - Configuration is minified for optimal size\n",
    "✅ **Dynamic** - Works with any Tailwind class\n",
    "✅ **Cacheable** - Browser caching supported\n",
    "✅ **Documented** - All files include banner comments\n",
    "✅ **Theme Included** - Custom colors, fonts, animations\n",
    "\n",
    "## Support\n",
    "\n",
    "For more information about your custom theme, see `tailwind.config.js` in the project root.\n"]

/-- Template literal `readmeContent` of `createDocumentation` (lines 185-266). -/
def readmeContent (generated jsKB configKB bundleKB : String) : String :=
  String.join (readmeParts generated jsKB configKB bundleKB)

/-- Template literal `exampleTemplate` of `createExampleTemplate` (lines 273-356); it has no interpolation. -/
def exampleTemplate : String :=
  String.join [
    "<!DOCTYPE html>\n",
    "<html lang=\"en\">\n",
    "<head>\n",
    "  <meta charset=\"UTF-8\">\n",
    "  <meta name=\"viewport\" content=\"width=device-width, initial-scale=1.0\">\n",
    "  <title>SkyCMS Page Template</title>\n",
    "  \n",
    "  <!-- SkyCMS Tailwind Distribution (Separate Files - Recommended) -->\n",
    "  <script src=\"/dist/skycms/tailwind-config.js\"></script>\n",
    "  <script src=\"/dist/skycms/tailwind-runtime.js\"></script>\n",
    "  \n",
    "  <!-- Alternative: Combined Bundle (Uncomment to use) -->\n",
    "  <!-- <script src=\"/dist/skycms/tailwind-bundle.js\"></script> -->\n",
    "</head>\n",
    "<body class=\"bg-gray-50\">\n",
    "  \n",
    "  <div class=\"container mx-auto px-4 py-12\">\n",
    "    <div class=\"bg-white rounded-lg shadow-lg p-8 max-w-4xl mx-auto\">\n",
    "      \n",
    "      <!-- Header -->\n",
    "      <header class=\"mb-8\">\n",
    "        <h1 class=\"text-4xl font-montserrat font-bold text-brand-500 mb-2\">\n",
    "          SkyCMS Page Template\n",
    "        </h1>\n",
    "        <p class=\"text-gray-600\">Production-ready Tailwind CSS distribution with minified config</p>\n",
    "      </header>\n",
    "\n",
    "      <!-- Content -->\n",
    "      <main class=\"space-y-6\">\n",
    "        \n",
    "        <!-- Custom Theme Demo -->\n",
    "        <section class=\"bg-gradient-to-r from-brand-500 to-brand-700 text-white rounded-lg p-6\">\n",
    "          <h2 class=\"text-2xl font-bold mb-3\">Custom Theme Works ✨</h2>\n",
    "          <p class=\"text-brand-100 mb-4\">\n",
    "            Brand colors, custom fonts, and animations are all included\n",
    "          </p>\n",
    "          <div class=\"flex gap-4\">\n",
    "            <button class=\"bg-accent-500 hover:bg-accent-600 px-6 py-3 rounded-lg font-semibold transition\">\n",
    "              Accent Button\n",
    "            </button>\n",
    "            <button class=\"bg-white text-brand-600 hover:bg-brand-50 px-6 py-3 rounded-lg font-semibold transition\">\n",
    "              Brand Button\n",
    "            </button>\n",
    "          </div>\n",
    "        </section>\n",
    "\n",
    "        <!-- Animation Demo -->\n",
    "        <section class=\"bg-accent-50 border border-accent-200 rounded-lg p-6\">\n",
    "          <div class=\"text-center animate-float\">\n",
    "            <div class=\"text-6xl mb-4\">🎈</div>\n",
    "            <p class=\"font-montserrat font-semibold text-accent-700\">\n",
    "              Custom animations work out of the box\n",
    "            </p>\n",
    "          </div>\n",
    "        </section>\n",
    "\n",
    "        <!-- Usage Info -->\n",
    "        <section class=\"bg-blue-50 border-l-4 border-blue-500 p-6\">\n",
    "          <h3 class=\"font-bold text-blue-900 mb-2\">📦 Distribution Info</h3>\n",
    "          <ul class=\"text-sm text-blue-800 space-y-1\">\n",
    "            <li>✓ Self-hosted (no CDN)</li>\n",
    "            <li>✓ Production-ready (no warnings)</li>\n",
    "            <li>✓ Configuration minified</li>\n",
    "            <li>✓ All files have banner comments</li>\n",
    "            <li>✓ All Tailwind classes work</li>\n",
    "            <li>✓ Custom theme included</li>\n",
    "            <li>✓ Browser cacheable</li>\n",
    "          </ul>\n",
    "        </section>\n",
    "\n",
    "      </main>\n",
    "\n",
    "      <!-- Footer -->\n",
    "      <footer class=\"mt-8 pt-6 border-t border-gray-200 text-center text-sm text-gray-600\">\n",
    "        <p>Built with SkyCMS Tailwind Distribution</p>\n",
    "        <p class=\"text-xs mt-1\">Files include informative banner comments</p>\n",
    "      </footer>\n",
    "\n",
    "    </div>\n",
    "  </div>\n",
    "\n",
    "</body>\n",
    "</html>\n"]

/-! ## The script -/

/-- The `sourceFiles` entry of `CONFIG`. -/
structure SourceFiles where
  tailwindJS : String
  tailwindConfig : String

/-- The `outputs.separate` entry of `CONFIG`. -/
structure SeparateOutputs where
  js : String
  config : String

/-- The `outputs.combined` entry of `CONFIG`. -/
structure CombinedOutputs where
  bundle : String

/-- The `outputs` entry of `CONFIG`. -/
structure Outputs where
  separate : SeparateOutputs
  combined : CombinedOutputs

/-- The type of `CONFIG`. -/
structure Config where
  sourceFiles : SourceFiles
  outputDir : String
  outputs : Outputs

/-- The constant `CONFIG` (lines 13-28). -/
def CONFIG : Config where
  sourceFiles := ⟨"tailwind.js", "tailwind-config.js"⟩
  outputDir := "dist/skycms"
  outputs := ⟨⟨"tailwind-runtime.js", "tailwind-config.js"⟩, ⟨"tailwind-bundle.js"⟩⟩

/-- The directory of the script. -/
def __dirname : Path := []

/-- The constant `outputDir` (line 33). -/
def outputDir : Path := path_join __dirname CONFIG.outputDir

/-- The type of `banners`. -/
structure Banners where
  runtime : String
  config : String
  bundle : String

/-- The constant `banners` (lines 40-99): its three template literals are
evaluated in order, each reading the clock once. -/
def banners (env : Env) : Banners where
  runtime := runtimeBanner (env.now 0)
  config := configBanner (env.now 1)
  bundle := bundleBanner (env.now 2)

/-- Local `tailwindJSPath` of `build` (line 105). -/
def tailwindJSPath : Path := path_join __dirname CONFIG.sourceFiles.tailwindJS

/-- Local `outputJSPath` of `build` (line 106). -/
def outputJSPath : Path := path_join outputDir CONFIG.outputs.separate.js

/-- Local `configPath` of `build` (line 119). -/
def configPath : Path := path_join __dirname CONFIG.sourceFiles.tailwindConfig

/-- Local `outputConfigPath` of `build` (line 120). -/
def outputConfigPath : Path := path_join outputDir CONFIG.outputs.separate.config

/-- Local `outputBundlePath` of `build` (line 150). -/
def outputBundlePath : Path := path_join outputDir CONFIG.outputs.combined.bundle

/-- The path `path.join(outputDir, 'README.md')` (line 268). -/
def readmePath : Path := path_join outputDir "README.md"

/-- The path `path.join(outputDir, 'example-template.html')` (line 358). -/
def examplePath : Path := path_join outputDir "example-template.html"

/-- Function `createDocumentation` (lines 184-270). The template literal is
evaluated left to right: the clock, then the three `statSync` calls; the file
is written afterwards. -/
def createDocumentation (env : Env) : JS Unit := do
  let generated := env.now 3
  let jsStat ← statSync (path_join outputDir CONFIG.outputs.separate.js)
  let configStat ← statSync (path_join outputDir CONFIG.outputs.separate.config)
  let bundleStat ← statSync (path_join outputDir CONFIG.outputs.combined.bundle)
  let readme := readmeContent generated (toFixed2KB jsStat.size) (toFixed2KB configStat.size)
    (toFixed2KB bundleStat.size)
  writeFileSync (path_join outputDir "README.md") readme
  console_log "✓ Created README.md"

/-- Function `createExampleTemplate` (lines 272-360). -/
def createExampleTemplate : JS Unit := do
  writeFileSync (path_join outputDir "example-template.html") exampleTemplate
  console_log "✓ Created example-template.html"

/-- Function `build` (lines 102-182). -/
def build (env : Env) : JS Unit :=
  tryCatch (do
    -- 1. Copy Tailwind JS runtime with banner
    if !(← existsSync tailwindJSPath) then
      console_error ("❌ Error: " ++ CONFIG.sourceFiles.tailwindJS ++ " not found!")
      process_exit 1
    let tailwindJS ← readFileSync tailwindJSPath
    writeFileSync outputJSPath ((banners env).runtime ++ tailwindJS)
    let jsSize := toFixed2KB (← statSync outputJSPath).size
    console_log ("✓ Copied Tailwind runtime: " ++ CONFIG.outputs.separate.js ++
      " (" ++ jsSize ++ " KB)")
    -- 2. Minify and copy configuration file
    if !(← existsSync configPath) then
      console_error ("❌ Error: " ++ CONFIG.sourceFiles.tailwindConfig ++ " not found!")
      process_exit 1
    let configContent ← readFileSync configPath
    let minified ← awaitMinify env configContent
    let finalConfig := (banners env).config ++ minified.code
    writeFileSync outputConfigPath finalConfig
    let configSize := toFixed2KB (← statSync outputConfigPath).size
    console_log ("✓ Minified and copied configuration: " ++ CONFIG.outputs.separate.config ++
      " (" ++ configSize ++ " KB)")
    -- 3. Create combined bundle with minified config
    let bundle := (banners env).bundle ++ tailwindJS ++ "\n\n" ++ minified.code
    writeFileSync outputBundlePath bundle
    let bundleSize := toFixed2KB (← statSync outputBundlePath).size
    console_log ("✓ Created minified bundle: " ++ CONFIG.outputs.combined.bundle ++
      " (" ++ bundleSize ++ " KB)")
    -- 4. Create README for the distribution
    createDocumentation env
    -- 5. Create example HTML template
    createExampleTemplate
    -- Summary
    console_log "\n✅ Build Complete!\n"
    -- console.log with two arguments prints them separated by one blank
    console_log ("📁 Output Directory:" ++ " " ++ CONFIG.outputDir)
    console_log "\n📦 Distribution Files:"
    console_log ("   - " ++ CONFIG.outputs.separate.js ++ " (with banner)")
    console_log ("   - " ++ CONFIG.outputs.separate.config ++ " (minified + banner)")
    console_log ("   - " ++ CONFIG.outputs.combined.bundle ++ " (minified + banner)")
    console_log "   - README.md"
    console_log "   - example-template.html"
    console_log "\n💡 Next Steps:"
    console_log "   1. Deploy dist/skycms/ to your web server"
    console_log "   2. Use example-template.html as your SkyCMS page template"
    console_log "   3. Configure cache headers for optimal performance"
    console_log "\n🚀 Ready for production!")
    (fun error => do
      console_error ("❌ Build failed: " ++ error.message)
      process_exit 1)

/-- The whole script, top to bottom: the start message (line 30), the output
directory step (lines 33-37), then the call `build()` (line 363). The banners
are a constant of the run (`banners env`). -/
def script (env : Env) : JS Unit := do
  console_log "🚀 Building SkyCMS Tailwind Distribution...\n"
  -- Create output directory
  if !(← existsSync outputDir) then
    mkdirSync outputDir
    console_log ("✓ Created output directory: " ++ CONFIG.outputDir)
  -- Run the build
  build env


/-! ## Vocabulary of the properties -/

/-- The file system after a successful `writeFileSync(p, data)`. -/
def put (fs : FS) (p : Path) (data : String) : FS :=
  Function.update fs p (some (.file data))

/-- Whether `writeFileSync(p, ..)` succeeds from `fs`: the parent is a
directory and `p` is not one. -/
def Writable (fs : FS) (p : Path) : Bool :=
  isDirectory fs p.parent && !(fs p == some Node.dir)

/-- Whether an event is a `writeFileSync` call. -/
def Event.isWrite : Event → Bool
  | .writeFileSync _ _ _ => true
  | _ => false

/-- Whether an event is a `readFileSync` call. -/
def Event.isRead : Event → Bool
  | .readFileSync _ => true
  | _ => false

/-- Whether an event is a call of the minifier. -/
def Event.isMinify : Event → Bool
  | .minify _ => true
  | _ => false

/-- The path an `fs` call is about. -/
def Event.path : Event → Option Path
  | .existsSync p => some p
  | .mkdirSync p => some p
  | .readFileSync p => some p
  | .writeFileSync p _ _ => some p
  | .statSync p => some p
  | _ => none

/-- The five paths under `dist/skycms` the script writes. -/
def outputPaths : List Path :=
  [outputJSPath, outputConfigPath, outputBundlePath, readmePath, examplePath]

/-- The text of the regular file at `p`, if there is one. -/
def fileText (fs : FS) (p : Path) : Option String :=
  match fs p with
  | some (.file content) => some content
  | _ => none

/-- The size in bytes of the regular file at `p`, if there is one. -/
def fileSize (fs : FS) (p : Path) : Option Nat :=
  (fileText fs p).map String.utf8ByteSize

/-- The text that follows `banner` in `content`, when `content` starts with it. -/
def stripBanner (banner content : String) : Option String :=
  if banner.data.isPrefixOf content.data then
    some (String.mk (content.data.drop banner.data.length))
  else none

/-- The text that follows `banner` in the regular file at `p`. -/
def postBanner (fs : FS) (banner : String) (p : Path) : Option String :=
  (fileText fs p).bind (stripBanner banner)

/-- The effects of a run that the properties below talk about: how it ended,
the file system it left, and its `writeFileSync`, `readFileSync` and minifier
calls in order. -/
structure Digest where
  result : Except Stop Unit
  fs : FS
  writes : List Event
  reads : List Event
  minifies : List Event

/-- The digest of a run. -/
def Run.digest (r : Run Unit) : Digest where
  result := r.result
  fs := r.fs
  writes := r.events.filter Event.isWrite
  reads := r.events.filter Event.isRead
  minifies := r.events.filter Event.isMinify

/-- Text written to `tailwind-runtime.js` for the runtime text `r`. -/
def runtimeOutput (env : Env) (r : String) : String := (banners env).runtime ++ r

/-- Text written to the output `tailwind-config.js` for the minified text `m`. -/
def configOutput (env : Env) (m : String) : String := (banners env).config ++ m

/-- Text written to `tailwind-bundle.js` for the runtime text `r` and the minified text `m`. -/
def bundleOutput (env : Env) (r m : String) : String :=
  (banners env).bundle ++ r ++ "\n\n" ++ m

/-- Text written to `README.md` when the three outputs hold `r` and `m`. -/
def readmeOutput (env : Env) (r m : String) : String :=
  readmeContent (env.now 3) (toFixed2KB (runtimeOutput env r).utf8ByteSize)
    (toFixed2KB (configOutput env m).utf8ByteSize)
    (toFixed2KB (bundleOutput env r m).utf8ByteSize)

/-- Closed form of the digest of `build env` from `fs`, by the point where the
run stops (`build_digest` proves it is the digest of `build`). -/
def buildDigest (env : Env) (fs : FS) : Digest :=
  let stop : Except Stop Unit := .error (.exit 1)
  let dirNode := fs outputDir
  let readJS := Event.readFileSync tailwindJSPath
  let readConfig := Event.readFileSync configPath
  match fs tailwindJSPath with
  | none => ⟨stop, fs, [], [], []⟩
  | some .dir => ⟨stop, fs, [], [readJS], []⟩
  | some (.file r) =>
    let w1 := Event.writeFileSync outputJSPath (runtimeOutput env r) dirNode
    if !Writable fs outputJSPath then ⟨stop, fs, [w1], [readJS], []⟩ else
    let fs1 := put fs outputJSPath (runtimeOutput env r)
    match fs configPath with
    | none => ⟨stop, fs1, [w1], [readJS], []⟩
    | some .dir => ⟨stop, fs1, [w1], [readJS, readConfig], []⟩
    | some (.file c) =>
      match env.minify c with
      | .error _ => ⟨stop, fs1, [w1], [readJS, readConfig], [.minify c]⟩
      | .ok minified =>
        let m := minified.code
        let w2 := Event.writeFileSync outputConfigPath (configOutput env m) dirNode
        if fs outputConfigPath = some .dir then
          ⟨stop, fs1, [w1, w2], [readJS, readConfig], [.minify c]⟩ else
        let fs2 := put fs1 outputConfigPath (configOutput env m)
        let w3 := Event.writeFileSync outputBundlePath (bundleOutput env r m) dirNode
        if fs outputBundlePath = some .dir then
          ⟨stop, fs2, [w1, w2, w3], [readJS, readConfig], [.minify c]⟩ else
        let fs3 := put fs2 outputBundlePath (bundleOutput env r m)
        let w4 := Event.writeFileSync readmePath (readmeOutput env r m) dirNode
        if fs readmePath = some .dir then
          ⟨stop, fs3, [w1, w2, w3, w4], [readJS, readConfig], [.minify c]⟩ else
        let fs4 := put fs3 readmePath (readmeOutput env r m)
        let w5 := Event.writeFileSync examplePath exampleTemplate dirNode
        if fs examplePath = some .dir then
          ⟨stop, fs4, [w1, w2, w3, w4, w5], [readJS, readConfig], [.minify c]⟩ else
        ⟨.ok (), put fs4 examplePath exampleTemplate, [w1, w2, w3, w4, w5],
          [readJS, readConfig], [.minify c]⟩

/-- The `writeFileSync` calls on `p` among `events`, in order. -/
def writesTo (p : Path) (events : List Event) : List Event :=
  events.filter (fun e => e.isWrite && e.path == some p)

/-- The `readFileSync` calls on `p` among `events`, in order. -/
def readsOf (p : Path) (events : List Event) : List Event :=
  events.filter (fun e => e.isRead && e.path == some p)

/-- The three rows of the `File Sizes` table of the README, for the three size
entries. -/
def sizeRows (jsKB configKB bundleKB : String) : String :=
  String.join [
    "| tailwind-runtime.js | ", jsKB, " KB | Tailwind CSS engine |\n",
    "| tailwind-config.js | ", configKB, " KB | Custom theme (minified) |\n",
    "| tailwind-bundle.js | ", bundleKB, " KB | Combined (all-in-one) |\n"]

/-- The output directory step of the script (lines 33-37) as a function on
file systems: nothing when `outputDir` exists, else the recursive `mkdirSync`. -/
def dirStep (fs : FS) : Except JSError FS :=
  if (fs outputDir).isSome then .ok fs else mkdirSync.go fs [] outputDir

/-- The output directory step of the script (lines 34-37) on its own, as a
computation; `script_steps` shows that the script is the start message, this
step, then `build()`. -/
def directoryStep : JS Unit := do
  if !(← existsSync outputDir) then
    mkdirSync outputDir
    console_log ("✓ Created output directory: " ++ CONFIG.outputDir)

/-- Whether an event is a `mkdirSync` call. -/
def Event.isMkdir : Event → Bool
  | .mkdirSync _ => true
  | _ => false

/-- No run of the computation makes a `mkdirSync` call. -/
def NoMkdir {α : Type} (m : JS α) : Prop :=
  ∀ fs, ∀ e ∈ (m fs).events, e.isMkdir = false

/-- Whether an event is a `statSync` call. -/
def Event.isStat : Event → Bool
  | .statSync _ => true
  | _ => false

/-- The value of a decimal digit character. -/
def digitValue (c : Char) : Nat := c.toNat - 48

/-- The number a decimal numeral denotes; `none` when the text is empty or holds
a character that is not a decimal digit. -/
def readNat (cs : List Char) : Option Nat :=
  if cs ≠ [] ∧ cs.all Char.isDigit = true then
    some (cs.foldl (fun acc c => acc * 10 + digitValue c) 0)
  else none

/-- The number of hundredths that a decimal numeral with exactly two fraction
digits denotes (`"12.34"` denotes 1234 hundredths); `none` for any other text. -/
def readFixed2 (text : String) : Option Nat :=
  match text.data.reverse with
  | f2 :: f1 :: sep :: intRev =>
    if sep = '.' ∧ f1.isDigit = true ∧ f2.isDigit = true then
      (readNat intRev.reverse).map (fun i => i * 100 + digitValue f1 * 10 + digitValue f2)
    else none
  | _ => none


/-! ## The committed configuration files -/

/-- The committed configuration source `tailwind-config.js`, verbatim (71 lines). -/
def configSource : String :=
  String.join [
    "// Tailwind CSS Configuration\n",
    "// This file is loaded once and cached across all SkyCMS pages\n",
    "\n",
    "tailwind.config = \x7b\n",
    "  theme: \x7b\n",
    "    extend: \x7b\n",
    "      // Custom brand colors\n",
    "      colors: \x7b\n",
    "        brand: \x7b\n",
    "          50: \x27#E0F7FA\x27,\n",
    "          100: \x27#B2EBF2\x27,\n",
    "          200: \x27#80DEEA\x27,\n",
    "          300: \x27#4DD0E1\x27,\n",
    "          400: \x27#26C6DA\x27,\n",
    "          500: \x27#00BCD4\x27,  // Primary brand color\n",
    "          600: \x27#0097A7\x27,\n",
    "          700: \x27#00838F\x27,\n",
    "          800: \x27#006064\x27,\n",
    "          900: \x27#004D40\x27\n",
    "        \x7d,\n",
    "        accent: \x7b\n",
    "          50: \x27#FFF8E1\x27,\n",
    "          100: \x27#FFECB3\x27,\n",
    "          200: \x27#FFE082\x27,\n",
    "          300: \x27#FFD54F\x27,\n",
    "          400: \x27#FFC107\x27,  // Primary accent color\n",
    "          500: \x27#FFA000\x27,\n",
    "          600: \x27#FF8F00\x27,\n",
    "          700: \x27#FF6F00\x27,\n",
    "          800: \x27#E65100\x27,\n",
    "          900: \x27#BF360C\x27\n",
    "        \x7d\n",
    "      \x7d,\n",
    "\n",
    "      // Custom fonts\n",
    "      fontFamily: \x7b\n",
    "        montserrat: [\x27Montserrat\x27, \x27sans-serif\x27],\n",
    "        roboto: [\x27Roboto\x27, \x27sans-serif\x27],\n",
    "        inter: [\x27Inter\x27, \x27sans-serif\x27]\n",
    "      \x7d,\n",
    "\n",
    "      // Custom animations\n",
    "      animation: \x7b\n",
    "        \x27float\x27: \x27float 3s ease-in-out infinite\x27,\n",
    "        \x27slide-in-left\x27: \x27slideInLeft 0.5s ease-out\x27,\n",
    "        \x27slide-in-right\x27: \x27slideInRight 0.5s ease-out\x27,\n",
    "        \x27fade-in\x27: \x27fadeIn 0.6s ease-in\x27\n",
    "      \x7d,\n",
    "\n",
    "      keyframes: \x7b\n",
    "        float: \x7b\n",
    "          \x270%, 100%\x27: \x7b transform: \x27translateY(0px)\x27 \x7d,\n",
    "          \x2750%\x27: \x7b transform: \x27translateY(-10px)\x27 \x7d\n",
    "        \x7d,\n",
    "        slideInLeft: \x7b\n",
    "          \x270%\x27: \x7b transform: \x27translateX(-100%)\x27, opacity: \x270\x27 \x7d,\n",
    "          \x27100%\x27: \x7b transform: \x27translateX(0)\x27, opacity: \x271\x27 \x7d\n",
    "        \x7d,\n",
    "        slideInRight: \x7b\n",
    "          \x270%\x27: \x7b transform: \x27translateX(100%)\x27, opacity: \x270\x27 \x7d,\n",
    "          \x27100%\x27: \x7b transform: \x27translateX(0)\x27, opacity: \x271\x27 \x7d\n",
    "        \x7d,\n",
    "        fadeIn: \x7b\n",
    "          \x270%\x27: \x7b opacity: \x270\x27 \x7d,\n",
    "          \x27100%\x27: \x7b opacity: \x271\x27 \x7d\n",
    "        \x7d\n",
    "      \x7d\n",
    "    \x7d\n",
    "  \x7d\n",
    "\x7d;\n",
    "\n"]

/-- The committed output `dist/skycms/tailwind-config.js`, verbatim: the config banner
(lines 1-17), then the minified code (line 18, cut here after some of its commas). -/
def committedOutput : String :=
  String.join [
    "/**\n",
    " * SkyCMS Tailwind Configuration\n",
    " * \n",
    " * This file contains your custom Tailwind theme configuration including:\n",
    " * - Brand colors (cyan/teal palette)\n",
    " * - Accent colors (orange/yellow palette)  \n",
    " * - Custom fonts (Montserrat, Roboto, Inter)\n",
    " * - Custom animations (float, slide-in, fade-in)\n",
    " * \n",
    " * Usage: Load this before tailwind-runtime.js\n",
    " * Size: ~2 KB (minified)\n",
    " * Cache: Update this file when theme changes\n",
    " * \n",
    " * Part of SkyCMS Tailwind Distribution\n",
    " * Generated: 2026-01-15T16:11:56.113Z\n",
    " */\n",
    "\n",
    "tailwind.config=\x7btheme:\x7bextend:\x7bcolors:\x7bbrand:\x7b50:\"#E0F7FA\",",
    "100:\"#B2EBF2\",200:\"#80DEEA\",300:\"#4DD0E1\",400:\"#26C6DA\",500:\"#00BCD4\",",
    "600:\"#0097A7\",700:\"#00838F\",800:\"#006064\",900:\"#004D40\"\x7d,accent:\x7b50:\"#FFF8E1\",",
    "100:\"#FFECB3\",200:\"#FFE082\",300:\"#FFD54F\",400:\"#FFC107\",500:\"#FFA000\",",
    "600:\"#FF8F00\",700:\"#FF6F00\",800:\"#E65100\",900:\"#BF360C\"\x7d\x7d,fontFamily:\x7bmontserrat:[\"Montserrat\",",
    "\"sans-serif\"],roboto:[\"Roboto\",\"sans-serif\"],inter:[\"Inter\",",
    "\"sans-serif\"]\x7d,animation:\x7bfloat:\"float 3s ease-in-out infinite\",",
    "\"slide-in-left\":\"slideInLeft 0.5s ease-out\",\"slide-in-right\":\"slideInRight 0.5s ease-out\",",
    "\"fade-in\":\"fadeIn 0.6s ease-in\"\x7d,keyframes:\x7bfloat:\x7b\"0%, 100%\":\x7btransform:\"translateY(0px)\"\x7d,",
    "\"50%\":\x7btransform:\"translateY(-10px)\"\x7d\x7d,slideInLeft:\x7b\"0%\":\x7btransform:\"translateX(-100%)\",",
    "opacity:\"0\"\x7d,\"100%\":\x7btransform:\"translateX(0)\",opacity:\"1\"\x7d\x7d,",
    "slideInRight:\x7b\"0%\":\x7btransform:\"translateX(100%)\",opacity:\"0\"\x7d,",
    "\"100%\":\x7btransform:\"translateX(0)\",opacity:\"1\"\x7d\x7d,fadeIn:\x7b\"0%\":\x7bopacity:\"0\"\x7d,",
    "\"100%\":\x7bopacity:\"1\"\x7d\x7d\x7d\x7d\x7d\x7d;\n"]

/-! ## Evaluation of a configuration script

The two committed files are scripts of the form `tailwind.config = <literal>;`
whose literal is built from string literals, array literals and object
literals only. For such a script, evaluation assigns to `tailwind.config` the
value the literal denotes; it is computed here as the listing of what is found
at each key path. Scripts outside this fragment are rejected (`none`). -/

/-- The lexical tokens of the fragment. -/
inductive Token
  | lbrace | rbrace | lbrack | rbrack | colon | comma | assign | semi | dot
  | ident (name : String)
  | num (digits : String)
  | str (value : String)
  deriving DecidableEq, Repr

/-- State of the scanner between two characters. -/
inductive LexState
  | start
  | inIdent (acc : List Char)
  | inNum (acc : List Char)
  | inStr (quote : Char) (acc : List Char)
  | slash
  | lineComment
  | blockComment
  | blockStar
  deriving DecidableEq, Repr

/-- Characters that continue an identifier. -/
def isIdentChar (c : Char) : Bool :=
  c.isAlphanum || c == '_' || c == '$'

/-- Scanner step from the `start` state: the new state and the tokens emitted. -/
def startStep (c : Char) : Option (LexState × List Token) :=
  if c.isWhitespace then some (.start, [])
  else if c == '{' then some (.start, [.lbrace])
  else if c == '}' then some (.start, [.rbrace])
  else if c == '[' then some (.start, [.lbrack])
  else if c == ']' then some (.start, [.rbrack])
  else if c == ':' then some (.start, [.colon])
  else if c == ',' then some (.start, [.comma])
  else if c == '=' then some (.start, [.assign])
  else if c == ';' then some (.start, [.semi])
  else if c == '.' then some (.start, [.dot])
  else if c == '/' then some (.slash, [])
  else if c == '"' || c == Char.ofNat 39 then some (.inStr c [], [])
  else if c.isDigit then some (.inNum [c], [])
  else if isIdentChar c then some (.inIdent [c], [])
  else none

/-- One scanner step. String literals with escapes or line breaks are outside
the fragment. -/
def lexStep : LexState → Char → Option (LexState × List Token)
  | .start, c => startStep c
  | .inIdent acc, c =>
    if isIdentChar c then some (.inIdent (c :: acc), [])
    else (startStep c).map fun (st, ts) => (st, .ident (String.mk acc.reverse) :: ts)
  | .inNum acc, c =>
    if c.isDigit then some (.inNum (c :: acc), [])
    else if isIdentChar c || c == '.' then none
    else (startStep c).map fun (st, ts) => (st, .num (String.mk acc.reverse) :: ts)
  | .inStr quote acc, c =>
    if c == quote then some (.start, [.str (String.mk acc.reverse)])
    else if c == '\\' || c == '\n' || c == '\r' then none
    else some (.inStr quote (c :: acc), [])
  | .slash, c =>
    if c == '/' then some (.lineComment, [])
    else if c == '*' then some (.blockComment, [])
    else none
  | .lineComment, c => if c == '\n' then some (.start, []) else some (.lineComment, [])
  | .blockComment, c => if c == '*' then some (.blockStar, []) else some (.blockComment, [])
  | .blockStar, c =>
    if c == '/' then some (.start, [])
    else if c == '*' then some (.blockStar, [])
    else some (.blockComment, [])

/-- The scanner: tokens of a text, comments and white space dropped. `acc`
holds the tokens read so far, last one first. -/
def lex : LexState → List Token → List Char → Option (List Token)
  | .start, acc, [] => some acc.reverse
  | .lineComment, acc, [] => some acc.reverse
  | .inIdent name, acc, [] => some (Token.ident (String.mk name.reverse) :: acc).reverse
  | .inNum digits, acc, [] => some (Token.num (String.mk digits.reverse) :: acc).reverse
  | _, _, [] => none
  | st, acc, c :: cs =>
    match lexStep st c with
    | none => none
    | some (st1, ts) => lex st1 (ts.reverse ++ acc) cs

/-- A step of a key path: a property name or an array index. -/
inductive Key
  | prop (name : String)
  | index (i : Nat)
  deriving DecidableEq, Repr

/-- What evaluation finds at a key path: an object, an array or a string. -/
inductive Found
  | object
  | array
  | string (value : String)
  deriving DecidableEq, Repr

/-- The value of a literal, listed in source order: for every key path that
exists in it, what is found there. Two listings are equal exactly when the
values have the same keys in the same order with the same values at every
nesting level. -/
abbrev Listing := List (List Key × Found)

/-- The property name a key token denotes: an identifier or string literal
names itself, a decimal numeral without leading zero names its digits. -/
def keyName : Token → Option String
  | .ident name => some name
  | .str value => some value
  | .num digits => if digits.data.head? = some '0' ∧ digits.length ≠ 1 then none else some digits
  | _ => none

/-- What the parser is reading: a value, the rest of an object literal, or the
rest of an array literal whose next index is `i`. -/
inductive Mode
  | value
  | fields
  | items (i : Nat)
  deriving DecidableEq, Repr

/-- Recursive descent over the tokens, at key path `path`; the result is the
listing of what was read and the tokens left. `fuel` bounds the nesting. -/
def parse : Nat → Mode → List Key → List Token → Option (Listing × List Token)
  | 0, _, _, _ => none
  | _ + 1, .value, path, .str value :: ts => some ([(path, .string value)], ts)
  | fuel + 1, .value, path, .lbrace :: ts =>
    (parse fuel .fields path ts).map fun (l, rest) => ((path, .object) :: l, rest)
  | fuel + 1, .value, path, .lbrack :: ts =>
    (parse fuel (.items 0) path ts).map fun (l, rest) => ((path, .array) :: l, rest)
  | _ + 1, .value, _, _ => none
  | _ + 1, .fields, _, .rbrace :: ts => some ([], ts)
  | fuel + 1, .fields, path, key :: .colon :: ts =>
    match keyName key with
    | none => none
    | some name =>
      match parse fuel .value (path ++ [.prop name]) ts with
      | some (l1, .comma :: rest) =>
        (parse fuel .fields path rest).map fun (l2, rest2) => (l1 ++ l2, rest2)
      | some (l1, .rbrace :: rest) => some (l1, rest)
      | _ => none
  | _ + 1, .fields, _, _ => none
  | _ + 1, .items _, _, .rbrack :: ts => some ([], ts)
  | fuel + 1, .items i, path, ts =>
    match parse fuel .value (path ++ [.index i]) ts with
    | some (l1, .comma :: rest) =>
      (parse fuel (.items (i + 1)) path rest).map fun (l2, rest2) => (l1 ++ l2, rest2)
    | some (l1, .rbrack :: rest) => some (l1, rest)
    | _ => none

/-- Evaluation of a script `tailwind.config = <literal>` with an optional final
semicolon: the listing of the value assigned to `tailwind.config`. -/
def evalConfigScript (script : String) : Option Listing :=
  match lex .start [] script.data with
  | some (.ident "tailwind" :: .dot :: .ident "config" :: .assign :: ts) =>
    match parse ts.length .value [] ts with
    | some (l, []) => some l
    | some (l, [.semi]) => some l
    | _ => none
  | _ => none

/-- Whether `needle` occurs in `text` as a run of consecutive characters. -/
def occursIn (needle text : String) : Bool :=
  text.data.tails.any (fun suffix => needle.data.isPrefixOf suffix)

/-- The comments of a text in the fragment: for each `//` outside a string
literal, the text from it to the end of the line. -/
def lineComments : LexState → List Char → List Char → List String
  | .lineComment, acc, [] => [String.mk acc.reverse]
  | _, _, [] => []
  | st, acc, c :: cs =>
    match lexStep st c with
    | none => []
    | some (.lineComment, _) =>
      lineComments .lineComment (if st = .lineComment then c :: acc else ['/', '/']) cs
    | some (st1, _) =>
      (if st = .lineComment then [String.mk acc.reverse] else []) ++ lineComments st1 [] cs


/-! ## Sample inputs -/

/-- A sample minifier: it drops the blanks of its input. -/
def sampleMinify (code : String) : Except JSError MinifyOutput :=
  .ok ⟨String.mk (code.data.filter (fun ch => ch ≠ ' '))⟩

/-- A sample environment: the sample minifier and a frozen clock. -/
def sampleEnv : Env := ⟨sampleMinify, fun _ => "2026-01-15T16:11:56.113Z"⟩

/-- A project directory with both sources and an empty `dist/skycms`. -/
def sampleFS : FS := fun p =>
  if p = ["tailwind.js"] then some (.file "tw();")
  else if p = ["tailwind-config.js"] then some (.file "a = 1")
  else if p = ["dist"] ∨ p = ["dist", "skycms"] then some .dir
  else none

/-- The sample project directory without its configuration source. -/
def noConfigFS : FS := fun p =>
  if p = ["tailwind.js"] then some (.file "tw();")
  else if p = ["dist"] ∨ p = ["dist", "skycms"] then some .dir
  else none

/-- A sample minifier that rejects every input. -/
def failingMinify (_ : String) : Except JSError MinifyOutput :=
  .error ⟨"Unexpected token"⟩

/-- A file system without any node. -/
def emptyFS : FS := fun _ => none

/-- The sample project directory after an earlier build left other outputs. -/
def staleFS : FS := fun p =>
  if p = ["dist", "skycms", "tailwind-bundle.js"] then some (.file "old bundle")
  else if p = ["dist", "skycms", "notes.txt"] then some (.file "keep")
  else sampleFS p

/-- The sample project directory before any build: both sources, no `dist`. -/
def noDistFS : FS := fun p =>
  if p = ["tailwind.js"] then some (.file "tw();")
  else if p = ["tailwind-config.js"] then some (.file "a = 1")
  else none

/-- The sample project directory with a regular file where `dist/skycms`
should be. -/
def blockedFS : FS := fun p =>
  if p = ["dist", "skycms"] then some (.file "not a directory")
  else if p = ["dist"] then some .dir
  else noDistFS p

/-- The sample project directory with three output files of 4, 2 and 6 bytes
already on disk. -/
def diskFS : FS := fun p =>
  if p = ["dist", "skycms", "tailwind-runtime.js"] then some (.file "1234")
  else if p = ["dist", "skycms", "tailwind-config.js"] then some (.file "12")
  else if p = ["dist", "skycms", "tailwind-bundle.js"] then some (.file "123456")
  else sampleFS p


/-! ## Running computations -/

theorem run_pure {α : Type} (a : α) (fs : FS) : (pure a : JS α) fs = ⟨.ok a, fs, []⟩ := rfl

theorem run_bind {α β : Type} (m : JS α) (f : α → JS β) (fs : FS) :
    (m >>= f) fs = JS.bind m f fs := rfl

theorem tailwindJSPath_eq : tailwindJSPath = ["tailwind.js"] := by decide
theorem configPath_eq : configPath = ["tailwind-config.js"] := by decide
theorem outputDir_eq : outputDir = ["dist", "skycms"] := by decide
theorem outputJSPath_eq : outputJSPath = ["dist", "skycms", "tailwind-runtime.js"] := by decide
theorem outputConfigPath_eq : outputConfigPath = ["dist", "skycms", "tailwind-config.js"] := by
  decide
theorem outputBundlePath_eq : outputBundlePath = ["dist", "skycms", "tailwind-bundle.js"] := by
  decide
theorem readmePath_eq : readmePath = ["dist", "skycms", "README.md"] := by decide
theorem examplePath_eq : examplePath = ["dist", "skycms", "example-template.html"] := by decide

theorem build_digest (env : Env) (fs : FS) : (build env fs).digest = buildDigest env fs := by
  unfold buildDigest
  simp only [tailwindJSPath_eq, configPath_eq, outputDir_eq, outputJSPath_eq, outputConfigPath_eq,
    outputBundlePath_eq, readmePath_eq, examplePath_eq]
  rcases h1 : fs ["tailwind.js"] with _ | ⟨r⟩ | _
  · simp [build, tryCatch, run_bind, JS.bind, existsSync, h1, console_error, process_exit,
      run_pure, tailwindJSPath_eq, Run.digest, Event.isWrite, Event.isRead, Event.isMinify]
  · simp only []
    by_cases hw : Writable fs ["dist", "skycms", "tailwind-runtime.js"] = true
    · simp only [hw, Bool.not_true, Bool.false_eq_true, if_false]
      simp only [Writable, Path.parent, List.dropLast, Bool.and_eq_true, Bool.not_eq_true',
        beq_eq_false_iff_ne, ne_eq] at hw
      obtain ⟨hd, hnd⟩ := hw
      rcases h2 : fs ["tailwind-config.js"] with _ | ⟨c⟩ | _
      · simp [build, tryCatch, run_bind, JS.bind, existsSync, h1, h2, hd, hnd, console_error,
          process_exit, run_pure, tailwindJSPath_eq, configPath_eq, outputJSPath_eq,
          Run.digest, Event.isWrite, Event.isRead, Event.isMinify, readFileSync, writeFileSync,
          statSync, console_log, Path.parent, Function.update_apply, put, runtimeOutput]
      · simp only []
        rcases h3 : env.minify c with e | minified
        · simp [build, tryCatch, run_bind, JS.bind, existsSync, h1, h2, h3, hd, hnd, console_error,
            process_exit, run_pure, tailwindJSPath_eq, configPath_eq, outputJSPath_eq,
            Run.digest, Event.isWrite, Event.isRead, Event.isMinify, readFileSync, writeFileSync,
            statSync, console_log, Path.parent, Function.update_apply, put, runtimeOutput,
            awaitMinify]
        · simp only []
          have hd2 : fs ["dist", "skycms"] = some Node.dir := by
            simpa [isDirectory] using hd
          by_cases h4 : fs ["dist", "skycms", "tailwind-config.js"] = some Node.dir
          · simp [build, tryCatch, run_bind, JS.bind, existsSync, h1, h2, h3, h4, hd, hd2, hnd,
              console_error, process_exit, run_pure, tailwindJSPath_eq, configPath_eq,
              outputJSPath_eq, outputConfigPath_eq, isDirectory,
              Run.digest, Event.isWrite, Event.isRead, Event.isMinify, readFileSync,
              writeFileSync, statSync, console_log, Path.parent, Function.update_apply, put,
              runtimeOutput, configOutput, awaitMinify]
          · simp only [h4, if_false]
            by_cases h5 : fs ["dist", "skycms", "tailwind-bundle.js"] = some Node.dir
            · simp [build, tryCatch, run_bind, JS.bind, existsSync, h1, h2, h3, h4, h5, hd, hd2, hnd,
                console_error, process_exit, run_pure, tailwindJSPath_eq, configPath_eq,
                outputJSPath_eq, outputConfigPath_eq, outputBundlePath_eq, isDirectory,
                Run.digest, Event.isWrite, Event.isRead, Event.isMinify, readFileSync,
                writeFileSync, statSync, console_log, Path.parent, Function.update_apply, put,
                runtimeOutput, configOutput, bundleOutput, awaitMinify]
            · simp only [h5, if_false]
              by_cases h6 : fs ["dist", "skycms", "README.md"] = some Node.dir
              · simp [build, tryCatch, run_bind, JS.bind, existsSync, h1, h2, h3, h4, h5, h6, hd, hd2,
                  hnd, console_error, process_exit, run_pure, tailwindJSPath_eq, configPath_eq,
                  outputJSPath_eq, outputConfigPath_eq, outputBundlePath_eq, isDirectory,
                  Run.digest, Event.isWrite, Event.isRead, Event.isMinify, readFileSync,
                  writeFileSync, statSync, console_log, Path.parent, Function.update_apply, put,
                  runtimeOutput, configOutput, bundleOutput, readmeOutput, awaitMinify,
                  createDocumentation, outputDir_eq, path_join, components, components.go,
                  CONFIG]
              · simp only [h6, if_false]
                by_cases h7 : fs ["dist", "skycms", "example-template.html"] = some Node.dir
                · simp [build, tryCatch, run_bind, JS.bind, existsSync, h1, h2, h3, h4, h5, h6,
                    h7, hd, hd2, hnd, console_error, process_exit, run_pure, tailwindJSPath_eq,
                    configPath_eq, outputJSPath_eq, outputConfigPath_eq, outputBundlePath_eq,
                    isDirectory, Run.digest, Event.isWrite, Event.isRead, Event.isMinify,
                    readFileSync, writeFileSync, statSync, console_log, Path.parent,
                    Function.update_apply, put, runtimeOutput, configOutput, bundleOutput,
                    readmeOutput, awaitMinify, createDocumentation, createExampleTemplate,
                    outputDir_eq, path_join, components, components.go, CONFIG]
                · simp [build, tryCatch, run_bind, JS.bind, existsSync, h1, h2, h3, h4, h5, h6,
                    h7, hd, hd2, hnd, console_error, process_exit, run_pure, tailwindJSPath_eq,
                    configPath_eq, outputJSPath_eq, outputConfigPath_eq, outputBundlePath_eq,
                    isDirectory, Run.digest, Event.isWrite, Event.isRead, Event.isMinify,
                    readFileSync, writeFileSync, statSync, console_log, Path.parent,
                    Function.update_apply, put, runtimeOutput, configOutput, bundleOutput,
                    readmeOutput, awaitMinify, createDocumentation, createExampleTemplate,
                    outputDir_eq, path_join, components, components.go, CONFIG]
      · simp [build, tryCatch, run_bind, JS.bind, existsSync, h1, h2, hd, hnd, console_error,
          process_exit, run_pure, tailwindJSPath_eq, configPath_eq, outputJSPath_eq,
          Run.digest, Event.isWrite, Event.isRead, Event.isMinify, readFileSync, writeFileSync,
          statSync, console_log, Path.parent, Function.update_apply, put, runtimeOutput]
    · simp only [hw, Bool.not_false, if_true]
      by_cases hd : isDirectory fs ["dist", "skycms"] = true
      · have hdir : fs ["dist", "skycms", "tailwind-runtime.js"] = some Node.dir := by
          simpa [Writable, hd, Path.parent] using hw
        simp [build, tryCatch, run_bind, JS.bind, existsSync, h1, hd, hdir, console_error,
          process_exit, run_pure, tailwindJSPath_eq, outputJSPath_eq,
          Run.digest, Event.isWrite, Event.isRead, Event.isMinify, readFileSync, writeFileSync,
          Path.parent, runtimeOutput]
      · simp [build, tryCatch, run_bind, JS.bind, existsSync, h1, hd, console_error,
          process_exit, run_pure, tailwindJSPath_eq, outputJSPath_eq,
          Run.digest, Event.isWrite, Event.isRead, Event.isMinify, readFileSync, writeFileSync,
          Path.parent, runtimeOutput]
  · simp [build, tryCatch, run_bind, JS.bind, existsSync, h1, console_error, process_exit,
      run_pure, tailwindJSPath_eq, Run.digest, readFileSync, Event.isWrite, Event.isRead, Event.isMinify]

/-! ## Consequences of the closed form -/

theorem build_result (env : Env) (fs : FS) :
    (build env fs).result = (buildDigest env fs).result :=
  congrArg Digest.result (build_digest env fs)

theorem build_fs (env : Env) (fs : FS) : (build env fs).fs = (buildDigest env fs).fs :=
  congrArg Digest.fs (build_digest env fs)

theorem build_writes (env : Env) (fs : FS) :
    (build env fs).events.filter Event.isWrite = (buildDigest env fs).writes :=
  congrArg Digest.writes (build_digest env fs)

theorem build_reads (env : Env) (fs : FS) :
    (build env fs).events.filter Event.isRead = (buildDigest env fs).reads :=
  congrArg Digest.reads (build_digest env fs)

theorem build_minifies (env : Env) (fs : FS) :
    (build env fs).events.filter Event.isMinify = (buildDigest env fs).minifies :=
  congrArg Digest.minifies (build_digest env fs)

theorem stripBanner_append (banner text : String) :
    stripBanner banner (banner ++ text) = some text := by
  simp [stripBanner, String.data_append]

theorem writable_iff (fs : FS) (p : Path) (h : p.parent = outputDir) :
    Writable fs p = true ↔ fs outputDir = some Node.dir ∧ fs p ≠ some Node.dir := by
  simp [Writable, h, isDirectory, outputDir_eq]

/-- When both sources are regular files, the minifier succeeds and the five
output paths are writable, the run completes and leaves the five outputs. -/
theorem build_complete (env : Env) (fs : FS) (r c : String) (minified : MinifyOutput)
    (hr : fs tailwindJSPath = some (.file r)) (hc : fs configPath = some (.file c))
    (hm : env.minify c = .ok minified)
    (hw : ∀ p ∈ outputPaths, Writable fs p = true) :
    buildDigest env fs =
      ⟨.ok (),
        put (put (put (put (put fs outputJSPath (runtimeOutput env r))
          outputConfigPath (configOutput env minified.code))
          outputBundlePath (bundleOutput env r minified.code))
          readmePath (readmeOutput env r minified.code))
          examplePath exampleTemplate,
        [.writeFileSync outputJSPath (runtimeOutput env r) (fs outputDir),
         .writeFileSync outputConfigPath (configOutput env minified.code) (fs outputDir),
         .writeFileSync outputBundlePath (bundleOutput env r minified.code) (fs outputDir),
         .writeFileSync readmePath (readmeOutput env r minified.code) (fs outputDir),
         .writeFileSync examplePath exampleTemplate (fs outputDir)],
        [.readFileSync tailwindJSPath, .readFileSync configPath],
        [.minify c]⟩ := by
  have h1 := hw outputJSPath (by simp [outputPaths])
  have h2 := hw outputConfigPath (by simp [outputPaths])
  have h3 := hw outputBundlePath (by simp [outputPaths])
  have h4 := hw readmePath (by simp [outputPaths])
  have h5 := hw examplePath (by simp [outputPaths])
  have g2 := (writable_iff fs _ (by decide)).1 h2
  have g3 := (writable_iff fs _ (by decide)).1 h3
  have g4 := (writable_iff fs _ (by decide)).1 h4
  have g5 := (writable_iff fs _ (by decide)).1 h5
  simp [buildDigest, hr, hc, hm, h1, g2.2, g3.2, g4.2, g5.2]

/-- A run that completes had both sources as regular files, a successful
minification and five writable output paths. -/
theorem build_ok_inv (env : Env) (fs : FS) (h : (build env fs).result = .ok ()) :
    ∃ r c minified, fs tailwindJSPath = some (.file r) ∧ fs configPath = some (.file c) ∧
      env.minify c = .ok minified ∧ ∀ p ∈ outputPaths, Writable fs p = true := by
  rw [build_result] at h
  unfold buildDigest at h
  rcases h1 : fs tailwindJSPath with _ | ⟨r⟩ | _
  · simp [h1] at h
  · rcases h2 : fs configPath with _ | ⟨c⟩ | _
    · simp [h1, h2] at h
      split_ifs at h
    · rcases h3 : env.minify c with e | minified
      · simp [h1, h2, h3] at h
        split_ifs at h
      · refine ⟨r, c, minified, rfl, rfl, h3, ?_⟩
        simp only [h1, h2, h3] at h
        split_ifs at h with g1 g2 g3 g4 g5
        simp only [Bool.not_eq_true', Bool.not_eq_false] at g1
        have gd := ((writable_iff fs _ (by decide)).1 g1).1
        intro p hp
        simp only [outputPaths, List.mem_cons, List.mem_singleton, List.not_mem_nil,
          or_false] at hp
        rcases hp with rfl | rfl | rfl | rfl | rfl
        · exact g1
        · exact (writable_iff fs _ (by decide)).2 ⟨gd, g2⟩
        · exact (writable_iff fs _ (by decide)).2 ⟨gd, g3⟩
        · exact (writable_iff fs _ (by decide)).2 ⟨gd, g4⟩
        · exact (writable_iff fs _ (by decide)).2 ⟨gd, g5⟩
    · simp [h1, h2] at h
      split_ifs at h
  · simp [h1] at h

theorem fileText_put_same (fs : FS) (p : Path) (data : String) :
    fileText (put fs p data) p = some data := by
  simp [fileText, put]

theorem fileText_put_of_ne (fs : FS) (p q : Path) (data : String) (h : q ≠ p) :
    fileText (put fs p data) q = fileText fs q := by
  simp [fileText, put, Function.update_apply, h]

/-- The outputs of a run that completes. -/
theorem build_complete_outputs (env : Env) (fs : FS) (r c : String) (minified : MinifyOutput)
    (hr : fs tailwindJSPath = some (.file r)) (hc : fs configPath = some (.file c))
    (hm : env.minify c = .ok minified)
    (hw : ∀ p ∈ outputPaths, Writable fs p = true) :
    (build env fs).result = .ok () ∧
    fileText (build env fs).fs outputJSPath = some (runtimeOutput env r) ∧
    fileText (build env fs).fs outputConfigPath = some (configOutput env minified.code) ∧
    fileText (build env fs).fs outputBundlePath = some (bundleOutput env r minified.code) ∧
    fileText (build env fs).fs readmePath = some (readmeOutput env r minified.code) ∧
    fileText (build env fs).fs examplePath = some exampleTemplate := by
  rw [build_result, build_fs, build_complete env fs r c minified hr hc hm hw]
  simp [fileText, put, Function.update_apply, outputJSPath_eq, outputConfigPath_eq,
    outputBundlePath_eq, readmePath_eq, examplePath_eq]

theorem postBanner_of_fileText (fs : FS) (p : Path) (banner text : String)
    (h : fileText fs p = some (banner ++ text)) : postBanner fs banner p = some text := by
  simp [postBanner, h, stripBanner_append]

theorem sampleFS_writable : ∀ p ∈ outputPaths, Writable sampleFS p = true := by decide

theorem sampleFS_runtime : sampleFS tailwindJSPath = some (.file "tw();") := by decide

theorem sampleFS_config : sampleFS configPath = some (.file "a = 1") := by decide

theorem sampleEnv_minify : sampleEnv.minify "a = 1" = .ok ⟨"a=1"⟩ := rfl

/-! ## C1 -/

/-- C1, as stated, fails: in the sample run, which completes, the text after the banner of
`tailwind-bundle.js` is the runtime text, two line feeds and the minified configuration; it
is not the concatenation of the texts after the banners of the two separate outputs. -/
theorem C1_counterexample :
    (build sampleEnv sampleFS).result = .ok () ∧
    postBanner (build sampleEnv sampleFS).fs (banners sampleEnv).runtime outputJSPath
      = some "tw();" ∧
    postBanner (build sampleEnv sampleFS).fs (banners sampleEnv).config outputConfigPath
      = some "a=1" ∧
    postBanner (build sampleEnv sampleFS).fs (banners sampleEnv).bundle outputBundlePath
      = some "tw();\n\na=1" ∧
    "tw();\n\na=1" ≠ "tw();" ++ "a=1" := by
  obtain ⟨h0, h1, h2, h3, _, _⟩ := build_complete_outputs sampleEnv sampleFS "tw();" "a = 1"
    ⟨"a=1"⟩ sampleFS_runtime sampleFS_config sampleEnv_minify sampleFS_writable
  refine ⟨h0, postBanner_of_fileText _ _ _ _ h1, postBanner_of_fileText _ _ _ _ h2, ?_,
    by decide⟩
  apply postBanner_of_fileText
  rw [h3]
  simp [bundleOutput, String.append_assoc]

/-- C1, amended: whenever both sources are regular files, the minifier succeeds on the
configuration text and `build()` completes, the text after the bundle banner in
`tailwind-bundle.js` equals the text after the runtime banner in `tailwind-runtime.js`,
followed by the separator of two line feeds, followed by the text after the config banner in
`tailwind-config.js` (these two texts being the runtime text and the minified text). -/
theorem C1_bundle_is_runtime_separator_config (env : Env) (fs : FS) (r c : String)
    (minified : MinifyOutput)
    (hr : fs tailwindJSPath = some (.file r)) (hc : fs configPath = some (.file c))
    (hm : env.minify c = .ok minified) (hdone : (build env fs).result = .ok ()) :
    postBanner (build env fs).fs (banners env).runtime outputJSPath = some r ∧
    postBanner (build env fs).fs (banners env).config outputConfigPath = some minified.code ∧
    postBanner (build env fs).fs (banners env).bundle outputBundlePath
      = some (r ++ "\n\n" ++ minified.code) := by
  obtain ⟨r', c', m', hr', hc', hm', hw⟩ := build_ok_inv env fs hdone
  obtain ⟨_, h1, h2, h3, _, _⟩ := build_complete_outputs env fs r c minified hr hc hm hw
  refine ⟨postBanner_of_fileText _ _ _ _ h1, postBanner_of_fileText _ _ _ _ h2, ?_⟩
  apply postBanner_of_fileText
  rw [h3]
  simp [bundleOutput, String.append_assoc]

/-- Witness for C1 (amended): the sample run. -/
theorem C1_bundle_is_runtime_separator_config_witness :
    postBanner (build sampleEnv sampleFS).fs (banners sampleEnv).runtime outputJSPath
      = some "tw();" ∧
    postBanner (build sampleEnv sampleFS).fs (banners sampleEnv).config outputConfigPath
      = some "a=1" ∧
    postBanner (build sampleEnv sampleFS).fs (banners sampleEnv).bundle outputBundlePath
      = some ("tw();" ++ "\n\n" ++ "a=1") :=
  C1_bundle_is_runtime_separator_config sampleEnv sampleFS "tw();" "a = 1" ⟨"a=1"⟩
    sampleFS_runtime sampleFS_config sampleEnv_minify
    (build_complete_outputs sampleEnv sampleFS "tw();" "a = 1" ⟨"a=1"⟩ sampleFS_runtime
      sampleFS_config sampleEnv_minify sampleFS_writable).1

theorem writesTo_eq (p : Path) (events : List Event) :
    writesTo p events = (events.filter Event.isWrite).filter (fun e => e.path == some p) := by
  simp [writesTo, List.filter_filter, Bool.and_comm]

theorem readsOf_eq (p : Path) (events : List Event) :
    readsOf p events = (events.filter Event.isRead).filter (fun e => e.path == some p) := by
  simp [readsOf, List.filter_filter, Bool.and_comm]

/-- Once the runtime source is a regular file and its output path is writable,
the runtime output is written, exactly once, whatever happens afterwards. -/
theorem build_runtime_written (env : Env) (fs : FS) (r : String)
    (hr : fs tailwindJSPath = some (.file r)) (hw : Writable fs outputJSPath = true) :
    writesTo outputJSPath (build env fs).events
      = [.writeFileSync outputJSPath ((banners env).runtime ++ r) (fs outputDir)] ∧
    (build env fs).fs outputJSPath = some (.file ((banners env).runtime ++ r)) := by
  simp only [build_fs, writesTo_eq, build_writes]
  unfold buildDigest
  rcases h2 : fs configPath with _ | ⟨c⟩ | _
  · simp [hr, hw, h2, put, Event.path, runtimeOutput]
  · rcases h3 : env.minify c with e | minified
    · simp [hr, hw, h2, h3, put, Event.path, runtimeOutput]
    · simp only [hr, hw, h2, h3, Bool.not_true, Bool.false_eq_true, ↓reduceIte]
      split_ifs <;>
      simp [put, Event.path, runtimeOutput, Function.update_apply, outputJSPath_eq,
        outputConfigPath_eq, outputBundlePath_eq, readmePath_eq, examplePath_eq]
  · simp [hr, hw, h2, put, Event.path, runtimeOutput]

/-! ## C2 -/

/-- C2: when both sources are regular files with texts `r` and `c`, the minifier succeeds on
`c` with `minified`, and the runtime, config and bundle outputs are writable, `build()` calls
the minifier exactly once (on `c`), writes `tailwind-bundle.js` exactly once, with the bundle
banner, `r`, the separator of two line feeds and `minified.code`, and that text is what the
file holds afterwards; the text after the config banner in the written `tailwind-config.js`
is the same `minified.code`. -/
theorem C2_minified_once_and_reused (env : Env) (fs : FS) (r c : String)
    (minified : MinifyOutput)
    (hr : fs tailwindJSPath = some (.file r)) (hc : fs configPath = some (.file c))
    (hm : env.minify c = .ok minified)
    (hw : ∀ p ∈ [outputJSPath, outputConfigPath, outputBundlePath], Writable fs p = true) :
    (build env fs).events.filter Event.isMinify = [Event.minify c] ∧
    writesTo outputBundlePath (build env fs).events
      = [.writeFileSync outputBundlePath
          ((banners env).bundle ++ r ++ "\n\n" ++ minified.code) (fs outputDir)] ∧
    fileText (build env fs).fs outputBundlePath
      = some ((banners env).bundle ++ r ++ "\n\n" ++ minified.code) ∧
    fileText (build env fs).fs outputConfigPath
      = some ((banners env).config ++ minified.code) ∧
    postBanner (build env fs).fs (banners env).config outputConfigPath
      = some minified.code := by
  have h1 := hw outputJSPath (by simp)
  have g2 := ((writable_iff fs _ (by decide)).1 (hw outputConfigPath (by simp))).2
  have g3 := ((writable_iff fs _ (by decide)).1 (hw outputBundlePath (by simp))).2
  simp only [postBanner, build_fs, writesTo_eq, build_writes, build_minifies]
  unfold buildDigest
  simp only [hr, hc, hm, h1, g2, g3, Bool.not_true, Bool.false_eq_true, ↓reduceIte]
  split_ifs <;>
  simp [put, Event.path, bundleOutput, configOutput, fileText, Function.update_apply,
    outputJSPath_eq, outputConfigPath_eq, outputBundlePath_eq, readmePath_eq, examplePath_eq,
    stripBanner_append]

/-- Witness for C2: the sample run. -/
theorem C2_minified_once_and_reused_witness :
    (build sampleEnv sampleFS).events.filter Event.isMinify = [Event.minify "a = 1"] ∧
    writesTo outputBundlePath (build sampleEnv sampleFS).events
      = [.writeFileSync outputBundlePath
          ((banners sampleEnv).bundle ++ "tw();" ++ "\n\n" ++ "a=1") (sampleFS outputDir)] ∧
    fileText (build sampleEnv sampleFS).fs outputBundlePath
      = some ((banners sampleEnv).bundle ++ "tw();" ++ "\n\n" ++ "a=1") ∧
    fileText (build sampleEnv sampleFS).fs outputConfigPath
      = some ((banners sampleEnv).config ++ "a=1") ∧
    postBanner (build sampleEnv sampleFS).fs (banners sampleEnv).config outputConfigPath
      = some "a=1" :=
  C2_minified_once_and_reused sampleEnv sampleFS "tw();" "a = 1" ⟨"a=1"⟩
    sampleFS_runtime sampleFS_config sampleEnv_minify (by decide)

/-! ## C3 -/

/-- C3: when `tailwind.js` is a regular file with text `r` and the runtime output path is
writable, `build()` writes `dist/skycms/tailwind-runtime.js` exactly once, with the runtime
banner followed by `r` unchanged; that is the content the file holds after the run, and
stripping the banner from it gives back `r`. -/
theorem C3_runtime_copied_verbatim (env : Env) (fs : FS) (r : String)
    (hr : fs tailwindJSPath = some (.file r)) (hw : Writable fs outputJSPath = true) :
    writesTo outputJSPath (build env fs).events
      = [.writeFileSync outputJSPath ((banners env).runtime ++ r) (fs outputDir)] ∧
    fileText (build env fs).fs outputJSPath = some ((banners env).runtime ++ r) ∧
    postBanner (build env fs).fs (banners env).runtime outputJSPath = some r := by
  obtain ⟨h1, h2⟩ := build_runtime_written env fs r hr hw
  have h3 : fileText (build env fs).fs outputJSPath = some ((banners env).runtime ++ r) := by
    simp [fileText, h2]
  exact ⟨h1, h3, postBanner_of_fileText _ _ _ _ h3⟩

/-- Witness for C3: the sample project without its configuration source. -/
theorem C3_runtime_copied_verbatim_witness :
    writesTo outputJSPath (build sampleEnv noConfigFS).events
      = [.writeFileSync outputJSPath ((banners sampleEnv).runtime ++ "tw();")
          (noConfigFS outputDir)] ∧
    fileText (build sampleEnv noConfigFS).fs outputJSPath
      = some ((banners sampleEnv).runtime ++ "tw();") ∧
    postBanner (build sampleEnv noConfigFS).fs (banners sampleEnv).runtime outputJSPath
      = some "tw();" :=
  C3_runtime_copied_verbatim sampleEnv noConfigFS "tw();" (by decide) (by decide)

/-! ## C4 -/

/-- C4: when `tailwind.js` is absent, `build()` ends the process with exit status 1, makes no
`writeFileSync` call, and leaves the whole file system, the five files of `dist/skycms`
included, exactly as it was. -/
theorem C4_missing_runtime_is_fatal (env : Env) (fs : FS) (h : fs tailwindJSPath = none) :
    (build env fs).result = .error (.exit 1) ∧
    (build env fs).exitCode = 1 ∧
    (build env fs).events.filter Event.isWrite = [] ∧
    (build env fs).fs = fs ∧
    ∀ p ∈ outputPaths, (build env fs).fs p = fs p := by
  have hres : (build env fs).result = .error (.exit 1) := by
    simp [build_result, buildDigest, h]
  have hfs : (build env fs).fs = fs := by simp [build_fs, buildDigest, h]
  refine ⟨hres, by simp [Run.exitCode, hres], by simp [build_writes, buildDigest, h], hfs, ?_⟩
  intro p _
  rw [hfs]

/-- Witness for C4: a run from the empty file system. -/
theorem C4_missing_runtime_is_fatal_witness :
    emptyFS tailwindJSPath = none ∧
    (build sampleEnv emptyFS).result = .error (.exit 1) ∧
    (build sampleEnv emptyFS).exitCode = 1 ∧
    (build sampleEnv emptyFS).events.filter Event.isWrite = [] ∧
    (build sampleEnv emptyFS).fs = emptyFS ∧
    ∀ p ∈ outputPaths, (build sampleEnv emptyFS).fs p = emptyFS p :=
  ⟨rfl, C4_missing_runtime_is_fatal sampleEnv emptyFS rfl⟩

/-! ## C5 -/

/-- C5, as stated, fails: in the sample project without its configuration source `build()`
ends with exit status 1, yet `dist/skycms/tailwind-runtime.js`, absent before the run, holds
the runtime banner and the runtime text after it. -/
theorem C5_counterexample :
    noConfigFS configPath = none ∧
    (build sampleEnv noConfigFS).result = .error (.exit 1) ∧
    noConfigFS outputJSPath = none ∧
    (build sampleEnv noConfigFS).fs outputJSPath
      = some (.file ((banners sampleEnv).runtime ++ "tw();")) ∧
    (build sampleEnv noConfigFS).fs outputJSPath ≠ noConfigFS outputJSPath := by
  have h := (build_runtime_written sampleEnv noConfigFS "tw();" (by decide) (by decide)).2
  have h0 : noConfigFS outputJSPath = none := by decide
  refine ⟨by decide, ?_, h0, h, ?_⟩
  · have hc : noConfigFS configPath = none := by decide
    have hr : noConfigFS tailwindJSPath = some (.file "tw();") := by decide
    have hw : Writable noConfigFS outputJSPath = true := by decide
    simp [build_result, buildDigest, hc, hr, hw]
  · rw [h, h0]
    simp

/-- C5, amended: when the source `tailwind-config.js` is absent, `build()` ends the process
with exit status 1 and leaves every path other than `dist/skycms/tailwind-runtime.js` as it
was, so the other four files of `dist/skycms` keep their existence and content; the only
`writeFileSync` calls are on `tailwind-runtime.js`. That file too is left as it was when
`tailwind.js` is absent; when `tailwind.js` is a regular file with text `r` and the runtime
output path is writable, it holds the runtime banner followed by `r` after the run (step 1
runs before the configuration source is looked for). -/
theorem C5_missing_config_is_fatal (env : Env) (fs : FS) (h : fs configPath = none) :
    (build env fs).result = .error (.exit 1) ∧
    (build env fs).exitCode = 1 ∧
    (∀ p, p ≠ outputJSPath → (build env fs).fs p = fs p) ∧
    (∀ e ∈ (build env fs).events, e.isWrite = true → e.path = some outputJSPath) ∧
    (fs tailwindJSPath = none → (build env fs).fs = fs) ∧
    (∀ r, fs tailwindJSPath = some (.file r) → Writable fs outputJSPath = true →
      (build env fs).fs outputJSPath = some (.file ((banners env).runtime ++ r))) := by
  have hres : (build env fs).result = .error (.exit 1) := by
    rw [build_result]
    unfold buildDigest
    rcases h1 : fs tailwindJSPath with _ | ⟨r⟩ | _
    · simp
    · simp only [h]
      split_ifs <;> rfl
    · simp
  have hw : ∀ e ∈ (build env fs).events.filter Event.isWrite, e.path = some outputJSPath := by
    rw [build_writes]
    unfold buildDigest
    rcases h1 : fs tailwindJSPath with _ | ⟨r⟩ | _
    · simp
    · simp only [h]
      split_ifs <;> simp [Event.path]
    · simp
  refine ⟨hres, by simp [Run.exitCode, hres], ?_, ?_, ?_, ?_⟩
  · intro p hp
    rw [build_fs]
    unfold buildDigest
    rcases h1 : fs tailwindJSPath with _ | ⟨r⟩ | _
    · simp
    · simp only [h]
      split_ifs <;> simp [put, Function.update_apply, hp]
    · simp
  · intro e he hwr
    exact hw e (List.mem_filter.2 ⟨he, hwr⟩)
  · intro h1
    simp [build_fs, buildDigest, h1]
  · intro r hr hwj
    exact (build_runtime_written env fs r hr hwj).2

/-- Witness for C5 (amended): the sample project without its configuration source. -/
theorem C5_missing_config_is_fatal_witness :
    noConfigFS configPath = none ∧
    (build sampleEnv noConfigFS).result = .error (.exit 1) ∧
    (∀ p, p ≠ outputJSPath → (build sampleEnv noConfigFS).fs p = noConfigFS p) ∧
    (build sampleEnv noConfigFS).fs outputJSPath
      = some (.file ((banners sampleEnv).runtime ++ "tw();")) :=
  have h := C5_missing_config_is_fatal sampleEnv noConfigFS (by decide)
  ⟨by decide, h.1, h.2.2.1, h.2.2.2.2.2 "tw();" (by decide) (by decide)⟩

/-! ## C6 -/

/-- C6: when both sources are regular files and the minifier fails on the configuration
text, `build()` ends the process with exit status 1; it makes no `writeFileSync` call on
`README.md`, `example-template.html`, the output `tailwind-config.js` or
`tailwind-bundle.js`, and each of these four paths holds after the run what it held before. -/
theorem C6_minify_failure_is_fatal (env : Env) (fs : FS) (r c : String) (e : JSError)
    (hr : fs tailwindJSPath = some (.file r)) (hc : fs configPath = some (.file c))
    (hm : env.minify c = .error e) :
    (build env fs).result = .error (.exit 1) ∧
    (build env fs).exitCode = 1 ∧
    ∀ p ∈ [readmePath, examplePath, outputConfigPath, outputBundlePath],
      writesTo p (build env fs).events = [] ∧ (build env fs).fs p = fs p := by
  have hres : (build env fs).result = .error (.exit 1) := by
    rw [build_result]
    unfold buildDigest
    simp only [hr, hc, hm]
    split_ifs <;> rfl
  refine ⟨hres, by simp [Run.exitCode, hres], ?_⟩
  intro p hp
  have hne : p ≠ outputJSPath := by
    intro hpe
    subst hpe
    revert hp
    decide
  simp only [writesTo_eq, build_writes, build_fs]
  unfold buildDigest
  simp only [hr, hc, hm]
  split_ifs <;> simp [put, Function.update_apply, hne, Event.path, Ne.symm hne]

/-- Witness for C6: the sample project with a minifier that rejects its input. -/
theorem C6_minify_failure_is_fatal_witness :
    (build ⟨failingMinify, sampleEnv.now⟩ sampleFS).result = .error (.exit 1) ∧
    (build ⟨failingMinify, sampleEnv.now⟩ sampleFS).exitCode = 1 ∧
    ∀ p ∈ [readmePath, examplePath, outputConfigPath, outputBundlePath],
      writesTo p (build ⟨failingMinify, sampleEnv.now⟩ sampleFS).events = [] ∧
      (build ⟨failingMinify, sampleEnv.now⟩ sampleFS).fs p = sampleFS p :=
  C6_minify_failure_is_fatal ⟨failingMinify, sampleEnv.now⟩ sampleFS "tw();" "a = 1"
    ⟨"Unexpected token"⟩ sampleFS_runtime sampleFS_config rfl

/-! ## C7 -/

theorem digitChar_spec : ∀ d < 10, (Nat.digitChar d).isDigit = true ∧
    digitValue (Nat.digitChar d) = d := by
  decide

theorem two_digits : ∀ m < 100,
    ((if m < 10 then "0" else "") ++ toString m).data
      = [Nat.digitChar (m / 10), Nat.digitChar (m % 10)] := by
  decide

theorem toDigitsCore_value (fuel : Nat) : ∀ (n : Nat) (ds : List Char), n < fuel →
    (Nat.toDigitsCore 10 fuel n ds).foldl (fun acc c => acc * 10 + digitValue c) 0
      = ds.foldl (fun acc c => acc * 10 + digitValue c) n := by
  induction fuel with
  | zero => intro n ds h; omega
  | succ fuel ih =>
    intro n ds h
    have hd := (digitChar_spec (n % 10) (Nat.mod_lt _ (by decide))).2
    simp only [Nat.toDigitsCore]
    split
    · next h0 =>
      have hn : n % 10 = n := by omega
      simp only [List.foldl_cons, Nat.zero_mul, Nat.zero_add, hd]
      rw [hn]
    · next h0 =>
      rw [ih (n / 10) _ (by omega)]
      have hn : n / 10 * 10 + n % 10 = n := by omega
      simp only [List.foldl_cons, hd]
      rw [hn]

theorem toDigitsCore_isDigit (fuel : Nat) : ∀ (n : Nat) (ds : List Char),
    ds.all Char.isDigit = true → (Nat.toDigitsCore 10 fuel n ds).all Char.isDigit = true := by
  induction fuel with
  | zero => intro n ds h; simpa [Nat.toDigitsCore] using h
  | succ fuel ih =>
    intro n ds h
    have hd := (digitChar_spec (n % 10) (Nat.mod_lt _ (by decide))).1
    simp only [Nat.toDigitsCore]
    split
    · simp [hd, h]
    · exact ih _ _ (by simp [hd, h])

theorem toDigitsCore_ne_nil (fuel : Nat) : ∀ (n : Nat) (ds : List Char),
    ds ≠ [] → Nat.toDigitsCore 10 fuel n ds ≠ [] := by
  induction fuel with
  | zero => intro n ds h; simpa [Nat.toDigitsCore] using h
  | succ fuel ih =>
    intro n ds h
    simp only [Nat.toDigitsCore]
    split
    · simp
    · exact ih _ _ (by simp)

/-- Reading back the decimal numeral of a number gives the number. -/
theorem readNat_toString (n : Nat) : readNat (toString n).data = some n := by
  have hdata : (toString n).data = Nat.toDigitsCore 10 (n + 1) n [] := rfl
  rw [hdata]
  have hne : Nat.toDigitsCore 10 (n + 1) n [] ≠ [] := by
    simp only [Nat.toDigitsCore]
    split
    · simp
    · exact toDigitsCore_ne_nil _ _ _ (by simp)
  have hall := toDigitsCore_isDigit (n + 1) n [] (by simp)
  have hval := toDigitsCore_value (n + 1) n [] (by omega)
  simp only [List.foldl_nil] at hval
  simp [readNat, hne, hall, hval]

/-- The size entry of the README, read as a decimal numeral, is the number of
hundredths of a kilobyte nearest to the size. -/
theorem readFixed2_toFixed2KB (size : Nat) :
    readFixed2 (toFixed2KB size) = some (kbHundredths size) := by
  unfold toFixed2KB
  generalize kbHundredths size = h
  have h2 := two_digits (h % 100) (Nat.mod_lt _ (by decide))
  have hd1 := digitChar_spec (h % 100 / 10) (by omega)
  have hd2 := digitChar_spec (h % 100 % 10) (by omega)
  have hdata : (toString (h / 100) ++ "." ++ (if h % 100 < 10 then "0" else "") ++
      toString (h % 100)).data
      = (toString (h / 100)).data ++
        ['.', Nat.digitChar (h % 100 / 10), Nat.digitChar (h % 100 % 10)] := by
    rw [String.append_assoc, String.data_append, h2, String.data_append]
    simp
  have hsum : h / 100 * 100 + h % 100 / 10 * 10 + h % 100 % 10 = h := by omega
  simp only [readFixed2, hdata, List.reverse_append, List.reverse_cons, List.reverse_nil,
    List.nil_append, List.cons_append, List.singleton_append, List.reverse_reverse]
  simp [hd1.1, hd2.1, hd1.2, hd2.2, readNat_toString, hsum]

theorem data_join_infix (pre mid post : List String) :
    (String.join mid).data <:+: (String.join (pre ++ (mid ++ post))).data := by
  simp only [String.data_join, List.map_append, List.flatten_append]
  exact ⟨_, _, (List.append_assoc _ _ _)⟩

/-- The README text contains the three rows of the size table, filled with the
three entries. -/
theorem sizeRows_infix (generated jsKB configKB bundleKB : String) :
    (sizeRows jsKB configKB bundleKB).data <:+:
      (readmeContent generated jsKB configKB bundleKB).data := by
  have hsplit : ∀ l : List String,
      l = l.take 41 ++ ((l.drop 41).take 9 ++ (l.drop 41).drop 9) := by
    intro l
    rw [List.take_append_drop, List.take_append_drop]
  have hmid : ((readmeParts generated jsKB configKB bundleKB).drop 41).take 9 =
      ["| tailwind-runtime.js | ", jsKB, " KB | Tailwind CSS engine |\n",
       "| tailwind-config.js | ", configKB, " KB | Custom theme (minified) |\n",
       "| tailwind-bundle.js | ", bundleKB, " KB | Combined (all-in-one) |\n"] := rfl
  unfold readmeContent sizeRows
  rw [hsplit (readmeParts generated jsKB configKB bundleKB), hmid]
  exact data_join_infix _ _ _

/-- The entry shown for a size is that size in kilobytes, rounded to the nearest
hundredth. -/
theorem kbHundredths_nearest (size : Nat) :
    2048 * kbHundredths size ≤ 200 * size + 1024 ∧
    200 * size + 1024 < 2048 * (kbHundredths size + 1) := by
  unfold kbHundredths
  omega

/-- The function `createDocumentation` takes the three sizes from the file system
it runs in: it stats the three files, then writes the README with the entries
computed from what it found. -/
theorem createDocumentation_reads_disk (env : Env) (fs : FS) (a b c : String)
    (h1 : fs outputJSPath = some (.file a)) (h2 : fs outputConfigPath = some (.file b))
    (h3 : fs outputBundlePath = some (.file c)) (hw : Writable fs readmePath = true) :
    (createDocumentation env fs).events =
      [.statSync outputJSPath, .statSync outputConfigPath, .statSync outputBundlePath,
       .writeFileSync readmePath (readmeContent (env.now 3) (toFixed2KB a.utf8ByteSize)
          (toFixed2KB b.utf8ByteSize) (toFixed2KB c.utf8ByteSize)) (fs outputDir),
       .console_log "✓ Created README.md"] ∧
    fileText (createDocumentation env fs).fs readmePath =
      some (readmeContent (env.now 3) (toFixed2KB a.utf8ByteSize)
        (toFixed2KB b.utf8ByteSize) (toFixed2KB c.utf8ByteSize)) := by
  have hw' := (writable_iff fs _ (by decide)).1 hw
  obtain ⟨hd, hnd⟩ := hw'
  simp only [outputJSPath_eq, outputConfigPath_eq, outputBundlePath_eq, readmePath_eq,
    outputDir_eq] at h1 h2 h3 hd hnd ⊢
  simp [createDocumentation, run_bind, JS.bind, run_pure, statSync, writeFileSync, console_log,
    h1, h2, h3, hd, hnd, isDirectory, Path.parent, outputDir_eq, path_join, components,
    components.go, CONFIG, fileText, Function.update_apply]

/-- The `writeFileSync` and `statSync` calls of a run that completes, in order:
each output is written, then its size is taken; `createDocumentation` takes the
three sizes again and only then writes the README. -/
theorem build_complete_write_stat_events (env : Env) (fs : FS) (r c : String)
    (minified : MinifyOutput)
    (hr : fs tailwindJSPath = some (.file r)) (hc : fs configPath = some (.file c))
    (hm : env.minify c = .ok minified)
    (hw : ∀ p ∈ outputPaths, Writable fs p = true) :
    (build env fs).events.filter (fun e => e.isWrite || e.isStat) =
      [.writeFileSync outputJSPath (runtimeOutput env r) (fs outputDir),
       .statSync outputJSPath,
       .writeFileSync outputConfigPath (configOutput env minified.code) (fs outputDir),
       .statSync outputConfigPath,
       .writeFileSync outputBundlePath (bundleOutput env r minified.code) (fs outputDir),
       .statSync outputBundlePath,
       .statSync outputJSPath, .statSync outputConfigPath, .statSync outputBundlePath,
       .writeFileSync readmePath (readmeOutput env r minified.code) (fs outputDir),
       .writeFileSync examplePath exampleTemplate (fs outputDir)] := by
  have g1 := (writable_iff fs _ (by decide)).1 (hw outputJSPath (by simp [outputPaths]))
  have g2 := (writable_iff fs _ (by decide)).1 (hw outputConfigPath (by simp [outputPaths]))
  have g3 := (writable_iff fs _ (by decide)).1 (hw outputBundlePath (by simp [outputPaths]))
  have g4 := (writable_iff fs _ (by decide)).1 (hw readmePath (by simp [outputPaths]))
  have g5 := (writable_iff fs _ (by decide)).1 (hw examplePath (by simp [outputPaths]))
  obtain ⟨hd, hnd⟩ := g1
  have h4 := g2.2
  have h5 := g3.2
  have h6 := g4.2
  have h7 := g5.2
  simp only [tailwindJSPath_eq, configPath_eq, outputJSPath_eq, outputConfigPath_eq,
    outputBundlePath_eq, readmePath_eq, examplePath_eq, outputDir_eq] at hr hc hd hnd ⊢
  simp only [outputConfigPath_eq, outputBundlePath_eq, readmePath_eq,
    examplePath_eq] at h4 h5 h6 h7
  simp [build, tryCatch, run_bind, JS.bind, existsSync, hr, hc, hm, h4, h5, h6,
    h7, hd, hnd, console_error, process_exit, run_pure, tailwindJSPath_eq,
    configPath_eq, outputJSPath_eq, outputConfigPath_eq, outputBundlePath_eq,
    isDirectory, Event.isWrite, Event.isStat,
    readFileSync, writeFileSync, statSync, console_log, Path.parent,
    Function.update_apply, runtimeOutput, configOutput, bundleOutput,
    readmeOutput, awaitMinify, createDocumentation, createExampleTemplate,
    outputDir_eq, path_join, components, components.go, CONFIG]

set_option maxRecDepth 100000 in
theorem sample_output_sizes :
    ((banners sampleEnv).runtime ++ "tw();").utf8ByteSize = 469 ∧
    ((banners sampleEnv).config ++ "a=1").utf8ByteSize = 508 ∧
    ((banners sampleEnv).bundle ++ "tw();" ++ "\n\n" ++ "a=1").utf8ByteSize = 791 ∧
    toFixed2KB 469 = "0.46" ∧ toFixed2KB 508 = "0.50" ∧ toFixed2KB 791 = "0.77" := by
  decide

/-- C7, as stated, fails: in the sample run, which completes, the three files have 469, 508
and 791 bytes on disk, and the `File Sizes` rows of the README list `0.46`, `0.50` and
`0.77`: numerals that denote 46, 50 and 77 hundredths (of a kilobyte), not the byte sizes,
also after conversion of kilobytes to bytes (0.46 KB is not 469 bytes). Two different byte
sizes, 1019 and 1029, get the same entry. -/
theorem C7_counterexample :
    (build sampleEnv sampleFS).result = .ok () ∧
    fileSize (build sampleEnv sampleFS).fs outputJSPath = some 469 ∧
    fileSize (build sampleEnv sampleFS).fs outputConfigPath = some 508 ∧
    fileSize (build sampleEnv sampleFS).fs outputBundlePath = some 791 ∧
    fileText (build sampleEnv sampleFS).fs readmePath
      = some (readmeContent "2026-01-15T16:11:56.113Z" "0.46" "0.50" "0.77") ∧
    (sizeRows "0.46" "0.50" "0.77").data <:+:
      (readmeContent "2026-01-15T16:11:56.113Z" "0.46" "0.50" "0.77").data ∧
    readFixed2 "0.46" = some 46 ∧ readFixed2 "0.50" = some 50 ∧ readFixed2 "0.77" = some 77 ∧
    "0.46" ≠ toString 469 ∧ "0.50" ≠ toString 508 ∧ "0.77" ≠ toString 791 ∧
    46 * 1024 ≠ 469 * 100 ∧
    (1019 ≠ 1029 ∧ toFixed2KB 1019 = toFixed2KB 1029) := by
  obtain ⟨h0, h1, h2, h3, h4, _⟩ := build_complete_outputs sampleEnv sampleFS "tw();" "a = 1"
    ⟨"a=1"⟩ sampleFS_runtime sampleFS_config sampleEnv_minify sampleFS_writable
  obtain ⟨z1, z2, z3, k1, k2, k3⟩ := sample_output_sizes
  refine ⟨h0, ?_, ?_, ?_, ?_, sizeRows_infix _ _ _ _, by decide, by decide, by decide,
    by decide, by decide, by decide, by decide, by decide, by decide⟩
  · simp only [fileSize, h1, runtimeOutput, Option.map_some', z1]
  · simp only [fileSize, h2, configOutput, Option.map_some', z2]
  · simp only [fileSize, h3, bundleOutput, Option.map_some', z3]
  · rw [h4]
    simp only [readmeOutput, runtimeOutput, configOutput, bundleOutput, z1, z2, z3, k1, k2, k3]
    rfl

/-- C7, amended: when both sources are regular files, the minifier succeeds and `build()`
completes, the three entries of the `File Sizes` table of the written `README.md` are, for
`tailwind-runtime.js`, `tailwind-config.js` and `tailwind-bundle.js`, the byte size `s` the
file has on disk after the run, which is the length of banner plus content written in this
run, shown as `(s / 1024).toFixed(2)`: read as a decimal numeral the entry is
`kbHundredths s` hundredths, the number of hundredths of a kilobyte nearest to `s` bytes. The
sizes come from `statSync` calls that `createDocumentation` makes after the three files were
written and before it writes the README, and `createDocumentation` always lists what it
finds on disk at that moment. -/
theorem C7_readme_lists_sizes_in_kb (env : Env) (fs : FS) (r c : String)
    (minified : MinifyOutput)
    (hr : fs tailwindJSPath = some (.file r)) (hc : fs configPath = some (.file c))
    (hm : env.minify c = .ok minified) (hdone : (build env fs).result = .ok ()) :
    (∃ s1 s2 s3 : Nat,
      fileSize (build env fs).fs outputJSPath = some s1 ∧
      fileSize (build env fs).fs outputConfigPath = some s2 ∧
      fileSize (build env fs).fs outputBundlePath = some s3 ∧
      s1 = ((banners env).runtime ++ r).utf8ByteSize ∧
      s2 = ((banners env).config ++ minified.code).utf8ByteSize ∧
      s3 = ((banners env).bundle ++ r ++ "\n\n" ++ minified.code).utf8ByteSize ∧
      fileText (build env fs).fs readmePath
        = some (readmeContent (env.now 3) (toFixed2KB s1) (toFixed2KB s2) (toFixed2KB s3)) ∧
      (sizeRows (toFixed2KB s1) (toFixed2KB s2) (toFixed2KB s3)).data <:+:
        (readmeContent (env.now 3) (toFixed2KB s1) (toFixed2KB s2) (toFixed2KB s3)).data ∧
      ∀ s ∈ [s1, s2, s3], readFixed2 (toFixed2KB s) = some (kbHundredths s) ∧
        2048 * kbHundredths s ≤ 200 * s + 1024 ∧
        200 * s + 1024 < 2048 * (kbHundredths s + 1)) ∧
    (build env fs).events.filter (fun e => e.isWrite || e.isStat) =
      [.writeFileSync outputJSPath ((banners env).runtime ++ r) (fs outputDir),
       .statSync outputJSPath,
       .writeFileSync outputConfigPath ((banners env).config ++ minified.code) (fs outputDir),
       .statSync outputConfigPath,
       .writeFileSync outputBundlePath
          ((banners env).bundle ++ r ++ "\n\n" ++ minified.code) (fs outputDir),
       .statSync outputBundlePath,
       .statSync outputJSPath, .statSync outputConfigPath, .statSync outputBundlePath,
       .writeFileSync readmePath
          (readmeContent (env.now 3)
            (toFixed2KB ((banners env).runtime ++ r).utf8ByteSize)
            (toFixed2KB ((banners env).config ++ minified.code).utf8ByteSize)
            (toFixed2KB ((banners env).bundle ++ r ++ "\n\n" ++ minified.code).utf8ByteSize))
          (fs outputDir),
       .writeFileSync examplePath exampleTemplate (fs outputDir)] ∧
    ∀ (fs1 : FS) (a b d : String),
      fs1 outputJSPath = some (.file a) → fs1 outputConfigPath = some (.file b) →
      fs1 outputBundlePath = some (.file d) → Writable fs1 readmePath = true →
      fileText (createDocumentation env fs1).fs readmePath =
        some (readmeContent (env.now 3) (toFixed2KB a.utf8ByteSize)
          (toFixed2KB b.utf8ByteSize) (toFixed2KB d.utf8ByteSize)) := by
  obtain ⟨r', c', m', hr', hc', hm', hw⟩ := build_ok_inv env fs hdone
  obtain ⟨_, h1, h2, h3, h4, _⟩ := build_complete_outputs env fs r c minified hr hc hm hw
  refine ⟨⟨_, _, _, ?_, ?_, ?_, rfl, rfl, rfl, ?_, sizeRows_infix _ _ _ _,
    fun s _ => ⟨readFixed2_toFixed2KB s, kbHundredths_nearest s⟩⟩,
    build_complete_write_stat_events env fs r c minified hr hc hm hw,
    fun fs1 a b d g1 g2 g3 gw => (createDocumentation_reads_disk env fs1 a b d g1 g2 g3 gw).2⟩
  · simp [fileSize, h1, runtimeOutput]
  · simp [fileSize, h2, configOutput]
  · simp [fileSize, h3, bundleOutput]
  · rw [h4]
    rfl

/-- Witness for C7 (amended): the sample run, and `createDocumentation` run on a file system
whose three output files have 4, 2 and 6 bytes. -/
theorem C7_readme_lists_sizes_in_kb_witness :
    (∃ s1 s2 s3 : Nat,
      fileSize (build sampleEnv sampleFS).fs outputJSPath = some s1 ∧
      fileSize (build sampleEnv sampleFS).fs outputConfigPath = some s2 ∧
      fileSize (build sampleEnv sampleFS).fs outputBundlePath = some s3 ∧
      s1 = ((banners sampleEnv).runtime ++ "tw();").utf8ByteSize ∧
      s2 = ((banners sampleEnv).config ++ "a=1").utf8ByteSize ∧
      s3 = ((banners sampleEnv).bundle ++ "tw();" ++ "\n\n" ++ "a=1").utf8ByteSize ∧
      fileText (build sampleEnv sampleFS).fs readmePath
        = some (readmeContent (sampleEnv.now 3) (toFixed2KB s1) (toFixed2KB s2)
            (toFixed2KB s3)) ∧
      (sizeRows (toFixed2KB s1) (toFixed2KB s2) (toFixed2KB s3)).data <:+:
        (readmeContent (sampleEnv.now 3) (toFixed2KB s1) (toFixed2KB s2)
          (toFixed2KB s3)).data ∧
      ∀ s ∈ [s1, s2, s3], readFixed2 (toFixed2KB s) = some (kbHundredths s) ∧
        2048 * kbHundredths s ≤ 200 * s + 1024 ∧
        200 * s + 1024 < 2048 * (kbHundredths s + 1)) ∧
    fileText (createDocumentation sampleEnv diskFS).fs readmePath =
      some (readmeContent (sampleEnv.now 3) (toFixed2KB "1234".utf8ByteSize)
        (toFixed2KB "12".utf8ByteSize) (toFixed2KB "123456".utf8ByteSize)) :=
  have h := C7_readme_lists_sizes_in_kb sampleEnv sampleFS "tw();" "a = 1" ⟨"a=1"⟩
    sampleFS_runtime sampleFS_config sampleEnv_minify
    (build_complete_outputs sampleEnv sampleFS "tw();" "a = 1" ⟨"a=1"⟩ sampleFS_runtime
      sampleFS_config sampleEnv_minify sampleFS_writable).1
  ⟨h.1, h.2.2 diskFS "1234" "12" "123456" (by decide) (by decide) (by decide) (by decide)⟩

/-! ## Running `build` again -/

/-- A second `build()` from the file system left by a first one, with the same
minifier and clock, leaves that file system as it is. -/
theorem build_fs_idempotent (env : Env) (fs : FS) :
    (build env (build env fs).fs).fs = (build env fs).fs := by
  simp only [build_fs]
  funext p
  simp only [buildDigest, tailwindJSPath_eq, configPath_eq, outputDir_eq, outputJSPath_eq,
    outputConfigPath_eq, outputBundlePath_eq, readmePath_eq, examplePath_eq]
  rcases h1 : fs ["tailwind.js"] with _ | ⟨r⟩ | _
  · simp [h1]
  · by_cases hw : Writable fs ["dist", "skycms", "tailwind-runtime.js"] = true
    · have hw' : fs ["dist", "skycms"] = some Node.dir ∧
          fs ["dist", "skycms", "tailwind-runtime.js"] ≠ some Node.dir := by
        simpa [Writable, isDirectory, Path.parent] using hw
      rcases h2 : fs ["tailwind-config.js"] with _ | ⟨c⟩ | _
      · simp [h1, h2, hw, hw'.1, hw'.2, put, Function.update_apply, Writable, isDirectory, Path.parent]
      · rcases h3 : env.minify c with e | minified
        · simp [h1, h2, h3, hw, hw'.1, hw'.2, put, Function.update_apply, Writable, isDirectory,
            Path.parent]
        · by_cases h4 : fs ["dist", "skycms", "tailwind-config.js"] = some Node.dir
          · simp [h1, h2, h3, h4, hw, hw'.1, hw'.2, put, Function.update_apply, Writable,
              isDirectory, Path.parent]
          · by_cases h5 : fs ["dist", "skycms", "tailwind-bundle.js"] = some Node.dir
            · simp [h1, h2, h3, h4, h5, hw, hw'.1, hw'.2, put, Function.update_apply, Writable,
                  isDirectory, Path.parent]
              split_ifs <;> rfl
            · by_cases h6 : fs ["dist", "skycms", "README.md"] = some Node.dir
              · simp [h1, h2, h3, h4, h5, h6, hw, hw'.1, hw'.2, put, Function.update_apply, Writable,
                  isDirectory, Path.parent]
                split_ifs <;> rfl
              · by_cases h7 : fs ["dist", "skycms", "example-template.html"] = some Node.dir
                · simp [h1, h2, h3, h4, h5, h6, h7, hw, hw'.1, hw'.2, put, Function.update_apply, Writable,
                  isDirectory, Path.parent]
                  split_ifs <;> rfl
                · simp [h1, h2, h3, h4, h5, h6, h7, hw, hw'.1, hw'.2, put, Function.update_apply, Writable,
                  isDirectory, Path.parent]
                  split_ifs <;> rfl
      · simp [h1, h2, hw, hw'.1, hw'.2, put, Function.update_apply, Writable, isDirectory, Path.parent]
    · simp [h1, hw]
  · simp [h1]

/-- Outside the five output paths `build()` changes nothing. -/
theorem build_frame (env : Env) (fs : FS) (p : Path) (hp : p ∉ outputPaths) :
    (build env fs).fs p = fs p := by
  simp only [outputPaths, List.mem_cons, List.mem_singleton, List.not_mem_nil, or_false,
    not_or] at hp
  obtain ⟨p1, p2, p3, p4, p5⟩ := hp
  rw [build_fs]
  unfold buildDigest
  simp only []
  repeat' split
  all_goals simp [put, Function.update_apply, p1, p2, p3, p4, p5]

/-- The `writeFileSync` calls of `build()` go, in order, to an initial segment of
the five output paths. -/
theorem build_writes_paths (env : Env) (fs : FS) :
    ((build env fs).events.filter Event.isWrite).map Event.path <+: outputPaths.map some := by
  rw [build_writes]
  unfold buildDigest
  simp only []
  repeat' split
  all_goals simp [Event.path, outputPaths, List.prefix_iff_eq_take]

/-- The `readFileSync` calls of `build()` are an initial segment of: the runtime
source, then the configuration source. -/
theorem build_reads_prefix (env : Env) (fs : FS) :
    (build env fs).events.filter Event.isRead
      <+: [.readFileSync tailwindJSPath, .readFileSync configPath] := by
  rw [build_reads]
  unfold buildDigest
  simp only []
  repeat' split
  all_goals simp [List.prefix_iff_eq_take]

/-! ## The whole script -/

/-- When the directory step succeeds, the script continues as `build()` from the
file system it leaves; the step itself reads and writes no file. -/
theorem script_digest_of_dirStep_ok (env : Env) (fs fs1 : FS) (h : dirStep fs = .ok fs1) :
    (script env fs).digest = (build env fs1).digest := by
  unfold dirStep at h
  rcases hb : build env fs1 with ⟨res, f2, ev⟩
  by_cases hex : (fs outputDir).isSome = true
  · simp only [hex, if_true, Except.ok.injEq] at h
    subst h
    simp [script, run_bind, JS.bind, console_log, existsSync, hex, run_pure, hb, Run.digest,
      Event.isWrite, Event.isRead, Event.isMinify]
  · simp only [hex, Bool.false_eq_true, if_false] at h
    simp [script, run_bind, JS.bind, console_log, existsSync, hex, run_pure, hb, Run.digest,
      mkdirSync, h, Event.isWrite, Event.isRead, Event.isMinify]

/-- When the directory step throws, the exception is uncaught: `build()` does
not run and the file system is left as it was. -/
theorem script_of_dirStep_error (env : Env) (fs : FS) (e : JSError)
    (h : dirStep fs = .error e) :
    (script env fs).digest = ⟨.error (.throw e), fs, [], [], []⟩ := by
  unfold dirStep at h
  by_cases hex : (fs outputDir).isSome = true
  · simp [hex] at h
  · simp only [hex, Bool.false_eq_true, if_false] at h
    simp [script, run_bind, JS.bind, console_log, existsSync, hex, run_pure, Run.digest,
      mkdirSync, h, Event.isWrite, Event.isRead, Event.isMinify]

/-- After a successful directory step the output directory exists and every
path other than `dist` and `dist/skycms` holds what it held. -/
theorem dirStep_ok_spec (fs fs1 : FS) (h : dirStep fs = .ok fs1) :
    (fs1 outputDir).isSome = true ∧
    ∀ p, p ≠ ["dist"] → p ≠ outputDir → fs1 p = fs p := by
  simp only [dirStep, outputDir_eq] at h ⊢
  rcases hex : fs ["dist", "skycms"] with _ | x
  · rcases hd : fs ["dist"] with _ | ⟨y⟩ | _
    · simp [mkdirSync.go, hd, hex, Function.update_apply] at h
      subst h
      exact ⟨by simp, fun p h1 h2 => by simp [Function.update_apply, h1, h2]⟩
    · simp [mkdirSync.go, hd, hex] at h
    · simp [mkdirSync.go, hd, hex] at h
      subst h
      exact ⟨by simp, fun p h1 h2 => by simp [Function.update_apply, h2]⟩
  · simp only [hex, Option.isSome_some, if_true, Except.ok.injEq] at h
    subst h
    exact ⟨by simp [hex], fun _ _ _ => rfl⟩

theorem script_fs_of_dirStep_ok (env : Env) (fs fs1 : FS) (h : dirStep fs = .ok fs1) :
    (script env fs).fs = (build env fs1).fs :=
  congrArg Digest.fs (script_digest_of_dirStep_ok env fs fs1 h)

theorem script_result_of_dirStep_ok (env : Env) (fs fs1 : FS) (h : dirStep fs = .ok fs1) :
    (script env fs).result = (build env fs1).result :=
  congrArg Digest.result (script_digest_of_dirStep_ok env fs fs1 h)

/-- Running the script again from the file system left by a first run, with the
same minifier and clock, leaves that file system as it is. -/
theorem script_fs_idempotent (env : Env) (fs : FS) :
    (script env (script env fs).fs).fs = (script env fs).fs := by
  rcases hstep : dirStep fs with e | fs1
  · have h1 : (script env fs).fs = fs :=
      congrArg Digest.fs (script_of_dirStep_error env fs e hstep)
    rw [h1, h1]
  · have h1 := script_fs_of_dirStep_ok env fs fs1 hstep
    have hdir : ((build env fs1).fs outputDir).isSome = true := by
      rw [build_frame env fs1 outputDir (by decide)]
      exact (dirStep_ok_spec fs fs1 hstep).1
    have hstep2 : dirStep (build env fs1).fs = .ok (build env fs1).fs := by
      simp [dirStep, hdir]
    rw [h1, script_fs_of_dirStep_ok env _ _ hstep2, build_fs_idempotent]

/-- The outputs of a run of the script that completes depend only on the two
source texts, the minifier and the clock. -/
theorem script_complete_outputs (env : Env) (fs : FS) (r c : String)
    (hr : fs tailwindJSPath = some (.file r)) (hc : fs configPath = some (.file c))
    (hdone : (script env fs).result = .ok ()) :
    ∃ minified, env.minify c = .ok minified ∧
      (script env fs).fs outputJSPath = some (.file (runtimeOutput env r)) ∧
      (script env fs).fs outputConfigPath = some (.file (configOutput env minified.code)) ∧
      (script env fs).fs outputBundlePath = some (.file (bundleOutput env r minified.code)) ∧
      (script env fs).fs readmePath = some (.file (readmeOutput env r minified.code)) ∧
      (script env fs).fs examplePath = some (.file exampleTemplate) := by
  rcases hstep : dirStep fs with e | fs1
  · have h1 : (script env fs).result = .error (.throw e) :=
      congrArg Digest.result (script_of_dirStep_error env fs e hstep)
    rw [h1] at hdone
    cases hdone
  · rw [script_result_of_dirStep_ok env fs fs1 hstep] at hdone
    rw [script_fs_of_dirStep_ok env fs fs1 hstep]
    have hspec := (dirStep_ok_spec fs fs1 hstep).2
    have hr1 : fs1 tailwindJSPath = some (.file r) := by
      rw [hspec _ (by decide) (by decide)]
      exact hr
    have hc1 : fs1 configPath = some (.file c) := by
      rw [hspec _ (by decide) (by decide)]
      exact hc
    obtain ⟨r', c', m', hr', hc', hm', hw⟩ := build_ok_inv env fs1 hdone
    rw [hc1] at hc'
    cases hc'
    refine ⟨m', hm', ?_⟩
    rw [build_fs, build_complete env fs1 r c m' hr1 hc1 hm' hw]
    simp [put, Function.update_apply, outputJSPath_eq, outputConfigPath_eq,
      outputBundlePath_eq, readmePath_eq, examplePath_eq]

/-! ## C8 -/

/-- C8: with a frozen clock (every reading gives `t`) and the minifier a function of its
input, running the script a second time, from the file system left by the first run, leaves
every path, the five files of `dist/skycms` included, with exactly the content the first run
left, whatever the first run found or created under `dist/skycms`. Moreover the five outputs
of a run that completes do not depend on what the file system held before, beyond the two
sources: two completing runs from file systems with the same source texts leave the same five
files. -/
theorem C8_second_run_identical (minify : String → Except JSError MinifyOutput) (t : String)
    (fs : FS) :
    (script ⟨minify, fun _ => t⟩ (script ⟨minify, fun _ => t⟩ fs).fs).fs
      = (script ⟨minify, fun _ => t⟩ fs).fs ∧
    (∀ p ∈ outputPaths,
      (script ⟨minify, fun _ => t⟩ (script ⟨minify, fun _ => t⟩ fs).fs).fs p
        = (script ⟨minify, fun _ => t⟩ fs).fs p) ∧
    ∀ (fs2 : FS) (r c : String),
      fs tailwindJSPath = some (.file r) → fs configPath = some (.file c) →
      fs2 tailwindJSPath = some (.file r) → fs2 configPath = some (.file c) →
      (script ⟨minify, fun _ => t⟩ fs).result = .ok () →
      (script ⟨minify, fun _ => t⟩ fs2).result = .ok () →
      ∀ p ∈ outputPaths,
        (script ⟨minify, fun _ => t⟩ fs2).fs p = (script ⟨minify, fun _ => t⟩ fs).fs p := by
  refine ⟨script_fs_idempotent _ fs, fun p _ => by rw [script_fs_idempotent], ?_⟩
  intro fs2 r c hr hc hr2 hc2 hdone hdone2 p hp
  obtain ⟨m, hm, a1, a2, a3, a4, a5⟩ := script_complete_outputs _ fs r c hr hc hdone
  obtain ⟨m2, hm2, b1, b2, b3, b4, b5⟩ := script_complete_outputs _ fs2 r c hr2 hc2 hdone2
  rw [hm] at hm2
  cases hm2
  simp only [outputPaths, List.mem_cons, List.mem_singleton, List.not_mem_nil, or_false] at hp
  rcases hp with rfl | rfl | rfl | rfl | rfl
  · rw [a1, b1]
  · rw [a2, b2]
  · rw [a3, b3]
  · rw [a4, b4]
  · rw [a5, b5]

theorem sampleFS_script_ok : (script sampleEnv sampleFS).result = .ok () := by
  have hs : dirStep sampleFS = .ok sampleFS := by simp [dirStep, outputDir_eq, sampleFS]
  rw [script_result_of_dirStep_ok sampleEnv sampleFS sampleFS hs]
  exact (build_complete_outputs sampleEnv sampleFS "tw();" "a = 1" ⟨"a=1"⟩ sampleFS_runtime
    sampleFS_config sampleEnv_minify sampleFS_writable).1

theorem staleFS_script_ok : (script sampleEnv staleFS).result = .ok () := by
  have hs : dirStep staleFS = .ok staleFS := by
    simp [dirStep, outputDir_eq, staleFS, sampleFS]
  rw [script_result_of_dirStep_ok sampleEnv staleFS staleFS hs]
  exact (build_complete_outputs sampleEnv staleFS "tw();" "a = 1" ⟨"a=1"⟩ (by decide)
    (by decide) sampleEnv_minify (by decide)).1

/-- Witness for C8: a second run on the sample project changes nothing, and a run from the
project with stale outputs leaves the same five files as the run from the clean one. -/
theorem C8_second_run_identical_witness :
    (script sampleEnv (script sampleEnv sampleFS).fs).fs = (script sampleEnv sampleFS).fs ∧
    ∀ p ∈ outputPaths, (script sampleEnv staleFS).fs p = (script sampleEnv sampleFS).fs p :=
  have h := C8_second_run_identical sampleMinify "2026-01-15T16:11:56.113Z" sampleFS
  ⟨h.1, h.2.2 staleFS "tw();" "a = 1" sampleFS_runtime sampleFS_config (by decide) (by decide)
    sampleFS_script_ok staleFS_script_ok⟩

/-! ## C9 -/

/-- C9, as stated, fails: when `tailwind.js` is absent the run stops before any
`readFileSync`, so neither source is read exactly once; it is read zero times. -/
theorem C9_counterexample :
    (build sampleEnv emptyFS).result = .error (.exit 1) ∧
    (readsOf tailwindJSPath (build sampleEnv emptyFS).events).length = 0 ∧
    (readsOf configPath (build sampleEnv emptyFS).events).length = 0 ∧
    (readsOf tailwindJSPath (build sampleEnv emptyFS).events).length ≠ 1 := by
  have h : emptyFS tailwindJSPath = none := rfl
  simp [readsOf_eq, build_reads, build_result, buildDigest, h]

/-- C9, amended: in every run of `build()`, from any file system and however it ends, each
`writeFileSync` call is on one of the five paths `tailwind-runtime.js`, `tailwind-config.js`,
`tailwind-bundle.js`, `README.md`, `example-template.html` of `dist/skycms`, and every other
path holds after the run what it held before; in particular the two sources at the project
root are not changed (the source `tailwind-config.js` and the output of the same name are
different paths). Each source is read at most once, and exactly once when the run
completes; when `tailwind.js` is absent no source is read at all. -/
theorem C9_writes_only_outputs (env : Env) (fs : FS) :
    (∀ e ∈ (build env fs).events, e.isWrite = true → ∃ q ∈ outputPaths, e.path = some q) ∧
    (∀ p, p ∉ outputPaths → (build env fs).fs p = fs p) ∧
    (build env fs).fs tailwindJSPath = fs tailwindJSPath ∧
    (build env fs).fs configPath = fs configPath ∧
    configPath ≠ outputConfigPath ∧
    (readsOf tailwindJSPath (build env fs).events).length ≤ 1 ∧
    (readsOf configPath (build env fs).events).length ≤ 1 ∧
    ((build env fs).result = .ok () →
      readsOf tailwindJSPath (build env fs).events = [.readFileSync tailwindJSPath] ∧
      readsOf configPath (build env fs).events = [.readFileSync configPath]) ∧
    (fs tailwindJSPath = none → (build env fs).events.filter Event.isRead = []) := by
  refine ⟨?_, fun p hp => build_frame env fs p hp, build_frame env fs _ (by decide),
    build_frame env fs _ (by decide), by decide, ?_, ?_, ?_,
    fun h => by simp [build_reads, buildDigest, h]⟩
  · intro e he hw
    have h1 : e.path ∈ ((build env fs).events.filter Event.isWrite).map Event.path :=
      List.mem_map_of_mem _ (List.mem_filter.2 ⟨he, hw⟩)
    have h2 := (build_writes_paths env fs).subset h1
    obtain ⟨q, hq, hqe⟩ := List.mem_map.1 h2
    exact ⟨q, hq, hqe.symm⟩
  · simp only [readsOf_eq, build_reads]
    unfold buildDigest
    simp only []
    repeat' split
    all_goals simp [Event.path, tailwindJSPath_eq, configPath_eq]
  · simp only [readsOf_eq, build_reads]
    unfold buildDigest
    simp only []
    repeat' split
    all_goals simp [Event.path, tailwindJSPath_eq, configPath_eq]
  · simp only [readsOf_eq, build_reads, build_result]
    unfold buildDigest
    simp only []
    repeat' split
    all_goals simp [Event.path, tailwindJSPath_eq, configPath_eq]

/-- Witness for C9 (amended): the sample run completes and reads each source once; the run
from the empty file system reads nothing. -/
theorem C9_writes_only_outputs_witness :
    (readsOf tailwindJSPath (build sampleEnv sampleFS).events
      = [.readFileSync tailwindJSPath] ∧
    readsOf configPath (build sampleEnv sampleFS).events = [.readFileSync configPath]) ∧
    (build sampleEnv emptyFS).events.filter Event.isRead = [] :=
  ⟨(C9_writes_only_outputs sampleEnv sampleFS).2.2.2.2.2.2.2.1
    (build_complete_outputs sampleEnv sampleFS "tw();" "a = 1" ⟨"a=1"⟩ sampleFS_runtime
      sampleFS_config sampleEnv_minify sampleFS_writable).1,
    (C9_writes_only_outputs sampleEnv emptyFS).2.2.2.2.2.2.2.2 rfl⟩

/-! ## C10 -/

set_option maxRecDepth 1000000 in
set_option maxHeartbeats 4000000 in
theorem committed_same_listing :
    evalConfigScript committedOutput = evalConfigScript configSource ∧
    (evalConfigScript configSource).map List.length = some 66 ∧
    (evalConfigScript configSource).map (fun listing => decide (listing.map Prod.fst).Nodup)
      = some true := by
  decide!

set_option maxRecDepth 1000000 in
set_option maxHeartbeats 4000000 in
theorem committed_brand_500 :
    (evalConfigScript committedOutput).map
      (fun listing => decide (([.prop "theme", .prop "extend", .prop "colors", .prop "brand",
        .prop "500"], Found.string "#00BCD4") ∈ listing)) = some true := by
  decide!

set_option maxRecDepth 1000000 in
set_option maxHeartbeats 4000000 in
theorem committed_code_text :
    ∃ code, stripBanner (configBanner "2026-01-15T16:11:56.113Z") committedOutput = some code ∧
      occursIn "brand" code = true ∧ occursIn "#00BCD4" code = true ∧
      occursIn "//" code = false ∧ occursIn "/*" code = false ∧ occursIn "  " code = false ∧
      code.data.count '\n' = 1 ∧ code.data.getLast? = some '\n' := by
  refine ⟨String.mk (committedOutput.data.drop
    (configBanner "2026-01-15T16:11:56.113Z").data.length), ?_⟩
  decide!

set_option maxRecDepth 1000000 in
set_option maxHeartbeats 4000000 in
theorem source_comments :
    lineComments .start [] configSource.data =
      ["// Tailwind CSS Configuration",
       "// This file is loaded once and cached across all SkyCMS pages",
       "// Custom brand colors", "// Primary brand color", "// Primary accent color",
       "// Custom fonts", "// Custom animations"] ∧
    (lineComments .start [] configSource.data).all
      (fun comment => !occursIn comment committedOutput) = true ∧
    configSource.data.count '\n' = 71 := by
  decide!

/-- C10: the committed source `tailwind-config.js` and the committed output
`dist/skycms/tailwind-config.js` both evaluate, and they assign to `tailwind.config` the
same value: the same listing of 66 key paths (no path twice), with the same thing found at
each, `theme.extend.colors.brand.500 = "#00BCD4"` among them. The output is the config banner
for its timestamp followed by the minified code; that code contains `brand` and `#00BCD4`
verbatim, has no comment and is a single line without indentation; and none of the seven
comments of the source, which spans 71 lines, occurs anywhere in the output. -/
theorem C10_minified_config_same_object :
    (∃ listing : Listing,
      evalConfigScript configSource = some listing ∧
      evalConfigScript committedOutput = some listing ∧
      listing.length = 66 ∧ (listing.map Prod.fst).Nodup ∧
      ([Key.prop "theme", .prop "extend", .prop "colors", .prop "brand", .prop "500"],
        Found.string "#00BCD4") ∈ listing) ∧
    (∃ code : String,
      stripBanner (configBanner "2026-01-15T16:11:56.113Z") committedOutput = some code ∧
      occursIn "brand" code = true ∧ occursIn "#00BCD4" code = true ∧
      occursIn "//" code = false ∧ occursIn "/*" code = false ∧ occursIn "  " code = false ∧
      code.data.count '\n' = 1 ∧ code.data.getLast? = some '\n') ∧
    lineComments .start [] configSource.data =
      ["// Tailwind CSS Configuration",
       "// This file is loaded once and cached across all SkyCMS pages",
       "// Custom brand colors", "// Primary brand color", "// Primary accent color",
       "// Custom fonts", "// Custom animations"] ∧
    (∀ comment ∈ lineComments .start [] configSource.data,
      occursIn comment committedOutput = false) ∧
    configSource.data.count '\n' = 71 := by
  obtain ⟨h1, h2, h3⟩ := committed_same_listing
  have h4 := committed_brand_500
  obtain ⟨h5, h6, h7⟩ := source_comments
  rcases hl : evalConfigScript configSource with _ | listing
  · rw [hl] at h2
    cases h2
  · rw [hl] at h1 h2 h3
    rw [h1] at h4
    simp only [Option.map_some', Option.some.injEq, decide_eq_true_eq] at h2 h3 h4
    refine ⟨⟨listing, rfl, h1, h2, h3, h4⟩, committed_code_text, h5, ?_, h7⟩
    intro comment hc
    have := List.all_eq_true.1 h6 comment hc
    simpa using this

/-! ## The output directory step -/

/-- The runs of the directory step: nothing but the `existsSync` test when the
path exists; else the recursive `mkdirSync`, which creates the directory or
throws. -/
theorem directoryStep_run (fs : FS) :
    directoryStep fs =
      if (fs outputDir).isSome then ⟨.ok (), fs, [.existsSync outputDir]⟩
      else match mkdirSync.go fs [] outputDir with
        | .ok fs1 => ⟨.ok (), fs1, [.existsSync outputDir, .mkdirSync outputDir,
            .console_log ("✓ Created output directory: " ++ CONFIG.outputDir)]⟩
        | .error e => ⟨.error (.throw e), fs, [.existsSync outputDir, .mkdirSync outputDir]⟩ := by
  by_cases hex : (fs outputDir).isSome = true
  · simp [directoryStep, run_bind, JS.bind, existsSync, hex, run_pure]
  · rcases hm : mkdirSync.go fs [] outputDir with e | fs1 <;>
    simp [directoryStep, run_bind, JS.bind, existsSync, hex, run_pure, mkdirSync, hm,
      console_log]

/-- The script is the start message, then the directory step, then `build()`. -/
theorem script_steps (env : Env) (fs : FS) :
    script env fs =
      (console_log "🚀 Building SkyCMS Tailwind Distribution...\n" >>= fun _ =>
        directoryStep >>= fun _ => build env) fs := by
  by_cases hex : (fs outputDir).isSome = true
  · rcases hb : build env fs with ⟨res, f2, ev⟩
    simp [script, directoryStep, run_bind, JS.bind, existsSync, hex, run_pure, console_log, hb]
  · rcases hm : mkdirSync.go fs [] outputDir with e | fs1
    · simp [script, directoryStep, run_bind, JS.bind, existsSync, hex, run_pure, console_log,
        mkdirSync, hm]
    · rcases hb : build env fs1 with ⟨res, f2, ev⟩
      simp [script, directoryStep, run_bind, JS.bind, existsSync, hex, run_pure, console_log,
        mkdirSync, hm, hb]

theorem NoMkdir.bind {α β : Type} {m : JS α} {f : α → JS β} (hm : NoMkdir m)
    (hf : ∀ a, NoMkdir (f a)) : NoMkdir (m >>= f) := by
  intro fs e he
  rcases h1 : m fs with ⟨r1, fs1, ev1⟩
  have hm1 := hm fs
  rw [h1] at hm1
  rcases r1 with s | a
  · simp only [run_bind, JS.bind, h1] at he
    exact hm1 e he
  · rcases h2 : f a fs1 with ⟨r2, fs2, ev2⟩
    have hf2 := hf a fs1
    rw [h2] at hf2
    simp only [run_bind, JS.bind, h1, h2, List.mem_append] at he
    rcases he with he | he
    · exact hm1 e he
    · exact hf2 e he

theorem NoMkdir.tryCatch {α : Type} {body : JS α} {handler : JSError → JS α}
    (hb : NoMkdir body) (hh : ∀ e, NoMkdir (handler e)) : NoMkdir (tryCatch body handler) := by
  intro fs e he
  rcases h1 : body fs with ⟨r1, fs1, ev1⟩
  have hb1 := hb fs
  rw [h1] at hb1
  rcases r1 with s | a
  · rcases s with code | err
    · simp only [SkyCMS.tryCatch, h1] at he
      exact hb1 e he
    · rcases h2 : handler err fs1 with ⟨r2, fs2, ev2⟩
      have hh2 := hh err fs1
      rw [h2] at hh2
      simp only [SkyCMS.tryCatch, h1, h2, List.mem_append] at he
      rcases he with he | he
      · exact hb1 e he
      · exact hh2 e he
  · simp only [SkyCMS.tryCatch, h1] at he
    exact hb1 e he

theorem NoMkdir.ite {α : Type} {c : Prop} [Decidable c] {x y : JS α} (hx : NoMkdir x)
    (hy : NoMkdir y) : NoMkdir (if c then x else y) := by
  split
  · exact hx
  · exact hy

theorem NoMkdir.pure {α : Type} (a : α) : NoMkdir (pure a : JS α) := by
  intro fs e he
  simp [run_pure] at he

theorem NoMkdir.console_log (text : String) : NoMkdir (console_log text) := by
  intro fs e he
  simp only [SkyCMS.console_log, List.mem_singleton] at he
  subst he
  rfl

theorem NoMkdir.console_error (text : String) : NoMkdir (console_error text) := by
  intro fs e he
  simp only [SkyCMS.console_error, List.mem_singleton] at he
  subst he
  rfl

theorem NoMkdir.process_exit {α : Type} (code : Nat) : NoMkdir (process_exit code : JS α) := by
  intro fs e he
  simp [SkyCMS.process_exit] at he

theorem NoMkdir.existsSync (p : Path) : NoMkdir (existsSync p) := by
  intro fs e he
  simp only [SkyCMS.existsSync, List.mem_singleton] at he
  subst he
  rfl

theorem NoMkdir.readFileSync (p : Path) : NoMkdir (readFileSync p) := by
  intro fs e he
  unfold SkyCMS.readFileSync at he
  split at he <;> simp only [List.mem_singleton] at he <;> subst he <;> rfl

theorem NoMkdir.writeFileSync (p : Path) (data : String) : NoMkdir (writeFileSync p data) := by
  intro fs e he
  unfold SkyCMS.writeFileSync at he
  split at he
  · split at he <;> simp only [List.mem_singleton] at he <;> subst he <;> rfl
  · simp only [List.mem_singleton] at he
    subst he
    rfl

theorem NoMkdir.statSync (p : Path) : NoMkdir (statSync p) := by
  intro fs e he
  unfold SkyCMS.statSync at he
  split at he <;> simp only [List.mem_singleton] at he <;> subst he <;> rfl

theorem NoMkdir.awaitMinify (env : Env) (code : String) : NoMkdir (awaitMinify env code) := by
  intro fs e he
  unfold SkyCMS.awaitMinify at he
  split at he <;> simp only [List.mem_singleton] at he <;> subst he <;> rfl

theorem NoMkdir.createDocumentation (env : Env) : NoMkdir (createDocumentation env) := by
  unfold SkyCMS.createDocumentation
  repeat' with_reducible first
    | refine NoMkdir.bind ?_ (fun _ => ?_)
    | exact NoMkdir.statSync _
    | exact NoMkdir.writeFileSync _ _
    | exact NoMkdir.console_log _

theorem NoMkdir.createExampleTemplate : NoMkdir createExampleTemplate := by
  unfold SkyCMS.createExampleTemplate
  repeat' with_reducible first
    | refine NoMkdir.bind ?_ (fun _ => ?_)
    | exact NoMkdir.writeFileSync _ _
    | exact NoMkdir.console_log _

/-- The function `build` never calls `mkdirSync`. -/
theorem NoMkdir.build (env : Env) : NoMkdir (build env) := by
  unfold SkyCMS.build
  repeat' with_reducible first
    | refine NoMkdir.tryCatch ?_ (fun _ => ?_)
    | refine NoMkdir.bind ?_ (fun _ => ?_)
    | refine NoMkdir.ite ?_ ?_
    | exact NoMkdir.pure _
    | exact NoMkdir.existsSync _
    | exact NoMkdir.readFileSync _
    | exact NoMkdir.writeFileSync _ _
    | exact NoMkdir.statSync _
    | exact NoMkdir.awaitMinify _ _
    | exact NoMkdir.console_log _
    | exact NoMkdir.console_error _
    | exact NoMkdir.process_exit _
    | exact NoMkdir.createDocumentation _
    | exact NoMkdir.createExampleTemplate

/-- When the directory step ends normally, the script continues with `build()`
from the file system the step left. -/
theorem script_after_step_ok (env : Env) (fs : FS) (h : (directoryStep fs).result = .ok ()) :
    (script env fs).events =
      Event.console_log "🚀 Building SkyCMS Tailwind Distribution...\n" ::
        ((directoryStep fs).events ++ (build env (directoryStep fs).fs).events) ∧
    (script env fs).fs = (build env (directoryStep fs).fs).fs ∧
    (script env fs).result = (build env (directoryStep fs).fs).result := by
  rw [script_steps]
  rcases hs : directoryStep fs with ⟨r1, fs1, ev1⟩
  rw [hs] at h
  simp only at h
  subst h
  rcases hb : build env fs1 with ⟨r2, fs2, ev2⟩
  simp [run_bind, JS.bind, console_log, hs, hb]

/-- When the directory step throws, nobody catches the exception: the script
stops there and `build()` does not run. -/
theorem script_after_step_error (env : Env) (fs : FS)
    (h : (directoryStep fs).result ≠ .ok ()) :
    (script env fs).events =
      Event.console_log "🚀 Building SkyCMS Tailwind Distribution...\n" ::
        (directoryStep fs).events ∧
    (script env fs).fs = (directoryStep fs).fs ∧
    (script env fs).result = (directoryStep fs).result := by
  rw [script_steps]
  rcases hs : directoryStep fs with ⟨r1, fs1, ev1⟩
  rw [hs] at h
  rcases r1 with s | u
  · simp [run_bind, JS.bind, console_log, hs]
  · exact absurd rfl h

/-- The directory step in terms of `dirStep`. -/
theorem directoryStep_dirStep (fs : FS) :
    (directoryStep fs).fs = (match dirStep fs with | .ok fs1 => fs1 | .error _ => fs) ∧
    (directoryStep fs).result =
      (match dirStep fs with | .ok _ => .ok () | .error e => .error (.throw e)) := by
  rw [directoryStep_run]
  unfold dirStep
  by_cases hex : (fs outputDir).isSome = true
  · simp [hex]
  · rcases hm : mkdirSync.go fs [] outputDir with e | fs1 <;> simp [hex, hm]

/-- The `mkdirSync` calls of the directory step: one when the path does not
exist, none when it does. -/
theorem directoryStep_mkdirs (fs : FS) :
    (directoryStep fs).events.filter Event.isMkdir =
      if (fs outputDir).isSome then [] else [.mkdirSync outputDir] := by
  rw [directoryStep_run]
  by_cases hex : (fs outputDir).isSome = true
  · simp [hex, Event.isMkdir]
  · rcases hm : mkdirSync.go fs [] outputDir with e | fs1 <;> simp [hex, hm, Event.isMkdir]

/-- The directory step makes no `writeFileSync` call. -/
theorem directoryStep_no_write (fs : FS) (p : Path) (data : String) (n : Option Node) :
    Event.writeFileSync p data n ∉ (directoryStep fs).events := by
  rw [directoryStep_run]
  by_cases hex : (fs outputDir).isSome = true
  · simp [hex]
  · rcases hm : mkdirSync.go fs [] outputDir with e | fs1 <;> simp [hex, hm]

/-- A created output directory is a directory. -/
theorem dirStep_creates_dir (fs fs1 : FS) (h : dirStep fs = .ok fs1)
    (hnone : fs outputDir = none) : fs1 outputDir = some .dir := by
  simp only [dirStep, outputDir_eq] at h hnone ⊢
  rcases hd : fs ["dist"] with _ | ⟨y⟩ | _
  · simp [mkdirSync.go, hd, hnone, Function.update_apply] at h
    subst h
    simp
  · simp [mkdirSync.go, hd, hnone] at h
  · simp [mkdirSync.go, hd, hnone] at h
    subst h
    simp

/-- Every `writeFileSync` call of `build()` is on one of the five output paths
and finds at `dist/skycms` the node that was there when `build()` started. -/
theorem build_write_events (env : Env) (fs : FS) (p : Path) (data : String)
    (n : Option Node) (h : Event.writeFileSync p data n ∈ (build env fs).events) :
    p ∈ outputPaths ∧ n = fs outputDir := by
  have h1 : Event.writeFileSync p data n ∈ (build env fs).events.filter Event.isWrite :=
    List.mem_filter.2 ⟨h, rfl⟩
  rw [build_writes] at h1
  revert h1
  unfold buildDigest
  simp only []
  repeat' split
  all_goals simp only [List.mem_cons, List.mem_singleton, List.not_mem_nil, or_false,
    Event.writeFileSync.injEq, false_imp_iff, outputPaths]
  all_goals
    intro h1
    tauto

/-- When `build()` changes a path, `dist/skycms` was a directory when it started. -/
theorem build_changes_need_dir (env : Env) (fs : FS) (p : Path)
    (h : (build env fs).fs p ≠ fs p) : fs outputDir = some .dir := by
  by_cases hw : Writable fs outputJSPath = true
  · exact ((writable_iff fs _ (by decide)).1 hw).1
  · exfalso
    apply h
    rw [build_fs]
    unfold buildDigest
    rcases h1 : fs tailwindJSPath with _ | ⟨r⟩ | _ <;> simp [hw]

/-! ## C11 -/

/-- C11: for every initial file system, the script is its start message, then the output
directory step, then `build()`, so whatever the step creates is created before `build()`
runs. The step calls `mkdirSync` only when nothing exists at `dist/skycms`, and `build()`
never does. When the path exists already the step does nothing but the `existsSync` test, and
running the step twice leaves the same file system and result as running it once. Every
`writeFileSync` call of the script is made by `build()` after a step that ended normally, on
one of the five paths directly under `dist/skycms`, at a moment when `dist/skycms` exists: the
node found there is the one the step left. Whenever `build()` changes a path, `dist/skycms`
was a directory; it always is one after a step that ended normally, unless a regular file
already occupied that path (then no write changes anything). -/
theorem C11_directory_before_writes (env : Env) (fs : FS) :
    script env fs =
      (console_log "🚀 Building SkyCMS Tailwind Distribution...\n" >>= fun _ =>
        directoryStep >>= fun _ => build env) fs ∧
    ((directoryStep fs).result = .ok () →
      (script env fs).events =
        Event.console_log "🚀 Building SkyCMS Tailwind Distribution...\n" ::
          ((directoryStep fs).events ++ (build env (directoryStep fs).fs).events)) ∧
    (directoryStep fs).events.filter Event.isMkdir =
      (if (fs outputDir).isSome then [] else [.mkdirSync outputDir]) ∧
    (script env fs).events.filter Event.isMkdir =
      (directoryStep fs).events.filter Event.isMkdir ∧
    ((fs outputDir).isSome = true →
      directoryStep fs = ⟨.ok (), fs, [.existsSync outputDir]⟩) ∧
    (directoryStep (directoryStep fs).fs).fs = (directoryStep fs).fs ∧
    (directoryStep (directoryStep fs).fs).result = (directoryStep fs).result ∧
    (∀ p data n, Event.writeFileSync p data n ∈ (script env fs).events →
      (directoryStep fs).result = .ok () ∧ p ∈ outputPaths ∧ p.parent = outputDir ∧
      n = (directoryStep fs).fs outputDir ∧ n.isSome = true) ∧
    (∀ p, (script env fs).fs p ≠ (directoryStep fs).fs p →
      (directoryStep fs).fs outputDir = some .dir) ∧
    ((directoryStep fs).result = .ok () → (∀ c, fs outputDir ≠ some (.file c)) →
      (directoryStep fs).fs outputDir = some .dir) := by
  have hstepfs := (directoryStep_dirStep fs).1
  have hstepres := (directoryStep_dirStep fs).2
  refine ⟨script_steps env fs, fun h => (script_after_step_ok env fs h).1,
    directoryStep_mkdirs fs, ?_, ?_, ?_, ?_, ?_, ?_, ?_⟩
  · -- `build()` creates no directory
    by_cases h : (directoryStep fs).result = .ok ()
    · rw [(script_after_step_ok env fs h).1]
      have hb : (build env (directoryStep fs).fs).events.filter Event.isMkdir = [] := by
        rw [List.filter_eq_nil_iff]
        intro e he
        simp [NoMkdir.build env _ e he]
      simp [List.filter_cons, List.filter_append, hb, Event.isMkdir]
    · rw [(script_after_step_error env fs h).1]
      simp [List.filter_cons, Event.isMkdir]
  · intro hex
    rw [directoryStep_run]
    simp [hex]
  · rcases hd : dirStep fs with e | fs1
    · rw [hd] at hstepfs
      simp only at hstepfs
      rw [hstepfs, hstepfs]
    · rw [hd] at hstepfs
      simp only at hstepfs
      have hex := (dirStep_ok_spec fs fs1 hd).1
      rw [hstepfs, directoryStep_run]
      simp [hex]
  · rcases hd : dirStep fs with e | fs1
    · rw [hd] at hstepfs
      simp only at hstepfs
      rw [hstepfs]
    · rw [hd] at hstepfs hstepres
      simp only at hstepfs hstepres
      have hex := (dirStep_ok_spec fs fs1 hd).1
      rw [hstepfs, hstepres, directoryStep_run]
      simp [hex]
  · intro p data n hmem
    by_cases h : (directoryStep fs).result = .ok ()
    · rw [(script_after_step_ok env fs h).1] at hmem
      simp only [List.mem_cons, List.mem_append, directoryStep_no_write, false_or,
        reduceCtorEq] at hmem
      obtain ⟨hp, hn⟩ := build_write_events env _ p data n hmem
      refine ⟨h, hp, ?_, hn, ?_⟩
      · exact (by decide : ∀ q ∈ outputPaths, Path.parent q = outputDir) p hp
      · rw [hn]
        rcases hd : dirStep fs with e | fs1
        · rw [hd] at hstepres
          rw [hstepres] at h
          cases h
        · rw [hd] at hstepfs
          simp only at hstepfs
          rw [hstepfs]
          exact (dirStep_ok_spec fs fs1 hd).1
    · rw [(script_after_step_error env fs h).1] at hmem
      simp only [List.mem_cons, directoryStep_no_write, or_false, reduceCtorEq] at hmem
  · intro p hp
    by_cases h : (directoryStep fs).result = .ok ()
    · rw [(script_after_step_ok env fs h).2.1] at hp
      exact build_changes_need_dir env _ p hp
    · rw [(script_after_step_error env fs h).2.1] at hp
      exact absurd rfl hp
  · intro h hnf
    rcases hd : dirStep fs with e | fs1
    · rw [hd] at hstepres
      rw [hstepres] at h
      cases h
    · rw [hd] at hstepfs
      simp only at hstepfs
      rw [hstepfs]
      rcases hn : fs outputDir with _ | ⟨c⟩ | _
      · exact dirStep_creates_dir fs fs1 hd hn
      · exact absurd hn (hnf c)
      · have hex : (fs outputDir).isSome = true := by simp [hn]
        simp only [dirStep, hex, if_true, Except.ok.injEq] at hd
        subst hd
        exact hn

theorem noDistFS_step_ok : (directoryStep noDistFS).result = .ok () := rfl

theorem noDistFS_script_ok : (script sampleEnv noDistFS).result = .ok () := by
  rw [(script_after_step_ok sampleEnv noDistFS noDistFS_step_ok).2.2]
  exact (build_complete_outputs sampleEnv _ "tw();" "a = 1" ⟨"a=1"⟩ (by decide) (by decide)
    sampleEnv_minify (by decide)).1

/-- The case of a regular file at `dist/skycms`: the path exists, so the step
creates nothing; the first `writeFileSync` of `build()` throws, the run ends with
exit status 1 and the file system is left as it was. -/
theorem blockedFS_run :
    (directoryStep blockedFS).events.filter Event.isMkdir = [] ∧
    (script sampleEnv blockedFS).result = .error (.exit 1) ∧
    (script sampleEnv blockedFS).fs = blockedFS ∧
    (script sampleEnv blockedFS).events.filter Event.isWrite =
      [.writeFileSync outputJSPath (runtimeOutput sampleEnv "tw();")
        (some (.file "not a directory"))] := by
  have hs : dirStep blockedFS = .ok blockedFS := by
    simp [dirStep, outputDir_eq, blockedFS]
  have hd := script_digest_of_dirStep_ok sampleEnv blockedFS blockedFS hs
  rw [build_digest] at hd
  have hr : blockedFS tailwindJSPath = some (.file "tw();") := by decide
  have hw : Writable blockedFS outputJSPath = false := by decide
  have hn : blockedFS outputDir = some (.file "not a directory") := by decide
  simp only [buildDigest, hr, hw, hn, Bool.not_false, if_true] at hd
  refine ⟨?_, congrArg Digest.result hd, congrArg Digest.fs hd, congrArg Digest.writes hd⟩
  rw [directoryStep_mkdirs]
  simp [hn]

/-- Witness for C11: from the sample project without `dist` the step creates the directory
with one `mkdirSync` call, `build()` then writes with `dist/skycms` a directory, and a second
step changes nothing; from the sample project that has its `dist/skycms` the step does
nothing but the `existsSync` test and leaves the directory. -/
theorem C11_directory_before_writes_witness :
    (directoryStep noDistFS).events.filter Event.isMkdir = [.mkdirSync outputDir] ∧
    (script sampleEnv noDistFS).fs outputJSPath ≠ (directoryStep noDistFS).fs outputJSPath ∧
    (directoryStep noDistFS).fs outputDir = some .dir ∧
    (directoryStep (directoryStep noDistFS).fs).fs = (directoryStep noDistFS).fs ∧
    directoryStep sampleFS = ⟨.ok (), sampleFS, [.existsSync outputDir]⟩ ∧
    (directoryStep sampleFS).fs outputDir = some .dir :=
  have h := C11_directory_before_writes sampleEnv noDistFS
  have h2 := C11_directory_before_writes sampleEnv sampleFS
  have hnone : noDistFS outputDir = none := by decide
  have hdir : sampleFS outputDir = some .dir := by decide
  have hw : (script sampleEnv noDistFS).fs outputJSPath
      ≠ (directoryStep noDistFS).fs outputJSPath := by
    obtain ⟨m, _, h1, _⟩ := script_complete_outputs sampleEnv noDistFS "tw();" "a = 1"
      (by decide) (by decide) noDistFS_script_ok
    rw [h1, show (directoryStep noDistFS).fs outputJSPath = none from by decide]
    simp
  ⟨h.2.2.1.trans (by simp [hnone]),
    hw,
    h.2.2.2.2.2.2.2.2.1 outputJSPath hw,
    h.2.2.2.2.2.1,
    h2.2.2.2.2.1 (by decide),
    h2.2.2.2.2.2.2.2.2.2 rfl (fun c hc => by rw [hdir] at hc; cases hc)⟩

end SkyCMS
